import Mathlib

/-!
Verification of the extraction & normalization pipeline of the
`whatsapp-journey-gen` repository.

The Python source under `src/agents/` is shallowly embedded: each relevant
Python function becomes a Lean definition of the same name (module-level
namespaces mirror the Python modules).  Python strings are Lean `String`s,
Python `list` is `List`, `dict` keyed by strings is an association list,
`None`-able values are `Option`.  Helper functions reproducing the exact
semantics of the Python string/list primitives used by the source live in
namespace `Py`.
-/

set_option maxRecDepth 4096

namespace Py

/-- Python's whitespace set for `str.strip()` / `\s` (ASCII part, which is
all that occurs in the embedded sources). -/
def isSpace (c : Char) : Bool :=
  c = ' ' || c = '\t' || c = '\n' || c = '\r' || c = '\x0b' || c = '\x0c'

/-- `str.strip()` on the left for an explicit character set. -/
def lstripSet (cs : List Char) (s : List Char) : List Char :=
  s.dropWhile (fun c => cs.contains c)

/-- `str.strip()` on the right for an explicit character set. -/
def rstripSet (cs : List Char) (s : List Char) : List Char :=
  (lstripSet cs s.reverse).reverse

/-- `str.strip()` (whitespace both ends). -/
def stripData (s : List Char) : List Char :=
  rstripSet [' ', '\t', '\n', '\r', '\x0b', '\x0c']
    (lstripSet [' ', '\t', '\n', '\r', '\x0b', '\x0c'] s)

def strip (s : String) : String := ⟨stripData s.data⟩

/-- `str.strip(chars)` for an explicit set, both ends. -/
def stripChars (cs : List Char) (s : String) : String :=
  ⟨rstripSet cs (lstripSet cs s.data)⟩

/-- `str.lstrip(chars)`. -/
def lstrip (cs : List Char) (s : String) : String := ⟨lstripSet cs s.data⟩

/-- `str.rstrip(chars)`. -/
def rstrip (cs : List Char) (s : String) : String := ⟨rstripSet cs s.data⟩

/-- ASCII lower-casing of one character; agrees with Python `str.lower` on
the ASCII/streamed inputs manipulated by the source. -/
def lowerChar (c : Char) : Char :=
  if 'A' ≤ c ∧ c ≤ 'Z' then Char.ofNat (c.toNat + 32) else c

/-- ASCII upper-casing of one character; agrees with Python `str.upper` on
the hex-digit strings it is applied to in the source. -/
def upperChar (c : Char) : Char :=
  if 'a' ≤ c ∧ c ≤ 'z' then Char.ofNat (c.toNat - 32) else c

def lower (s : String) : String := ⟨s.data.map lowerChar⟩

def upper (s : String) : String := ⟨s.data.map upperChar⟩

/-- Python `len` on a string (counts code points). -/
def len (s : String) : Nat := s.data.length

/-- Python slicing `s[:n]`. -/
def take (s : String) (n : Nat) : String := ⟨s.data.take n⟩

/-- Substring test on character lists (Python `sub in s`). -/
def containsData (hay sub : List Char) : Bool :=
  sub.isPrefixOf hay ||
    match hay with
    | [] => false
    | _ :: t => containsData t sub

/-- Python `sub in s` (substring containment). -/
def contains (s sub : String) : Bool := containsData s.data sub.data

/-- Python `s.startswith(p)`. -/
def startswith (s p : String) : Bool := p.data.isPrefixOf s.data

/-- Python `s.startswith((p1, ..., pk))`. -/
def startswithAny (s : String) (ps : List String) : Bool :=
  ps.any (fun p => startswith s p)

/-- Python `s.endswith(p)`. -/
def endswith (s p : String) : Bool := p.data.isSuffixOf s.data

/-- Python `s.split('\n')`. -/
def splitNl (s : String) : List String :=
  (s.data.splitOn '\n').map (fun cs => (⟨cs⟩ : String))

/-- `bool(s)` for a string: non-empty. -/
def truthy (s : String) : Bool := s ≠ ""

/-- `list(dict.fromkeys(xs))`: deduplication keeping the first occurrence,
preserving order.  Also used to model `list(set(xs))`, whose iteration
order Python leaves unspecified; every property verified below is
independent of that order. -/
def dedup {α : Type} [DecidableEq α] (xs : List α) : List α :=
  xs.foldl (fun acc x => if x ∈ acc then acc else acc ++ [x]) []

/-- `acc.extend(x for x in xs if x not in acc)`: Python evaluates the
membership test against the growing list, so duplicates inside `xs` are
also suppressed. -/
def extendUnique {α : Type} [DecidableEq α] (acc xs : List α) : List α :=
  xs.foldl (fun l x => if x ∈ l then l else l ++ [x]) acc

/-- Assignment `d[k] = v` on a string-keyed dict modelled as an
insertion-ordered association list. -/
def dictSet {α : Type} (d : List (String × α)) (k : String) (v : α) :
    List (String × α) :=
  if d.any (fun p => p.1 = k) then
    d.map (fun p => if p.1 = k then (k, v) else p)
  else
    d ++ [(k, v)]

end Py

/-! ## Data model (src/agents/tools/content_extractor.py, dataclasses) -/

namespace ContentExtractor

/-- `ValueProposition` dataclass. -/
structure ValueProposition where
  headline : String := ""
  subheadline : String := ""
  key_benefits : List String := []
  deriving DecidableEq, Repr

/-- `ProductInfo` dataclass. -/
structure ProductInfo where
  name : String := ""
  description : String := ""
  features : List String := []
  outcomes : List String := []
  deriving DecidableEq, Repr

/-- `SocialProof` dataclass. -/
structure SocialProof where
  testimonials : List String := []
  stats : List String := []
  trust_badges : List String := []
  deriving DecidableEq, Repr

/-- `CTAs` dataclass; `urls` is an insertion-ordered dict. -/
structure CTAs where
  primary : String := ""
  secondary : String := ""
  urls : List (String × String) := []
  deriving DecidableEq, Repr

/-- `BrandElements` dataclass. -/
structure BrandElements where
  name : String := ""
  colors : List String := []
  tone_keywords : List String := []
  industry : String := ""
  deriving DecidableEq, Repr

/-- `Assets` dataclass. -/
structure Assets where
  pdfs : List String := []
  videos : List String := []
  images : List String := []
  deriving DecidableEq, Repr

/-- `ExtractedContent` dataclass. -/
structure ExtractedContent where
  source : String := ""
  source_type : String := ""
  value_proposition : ValueProposition := {}
  product : ProductInfo := {}
  social_proof : SocialProof := {}
  ctas : CTAs := {}
  brand : BrandElements := {}
  assets : Assets := {}
  raw_text : String := ""
  deriving DecidableEq, Repr

end ContentExtractor

/-! ## Source reconciler (src/agents/orchestrator.py, `Orchestrator._extract_content`,
lines 310–355; the fetching loop above those lines is the external-collaborator
boundary, so the embedding starts from the list `all_extractions`). -/

namespace Orchestrator

open ContentExtractor

/-- One pass of the supplementation loop body (orchestrator.py lines 316–347)
for a single later extraction `extra` against the accumulator `merged`. -/
def mergeInto (merged extra : ExtractedContent) : ExtractedContent :=
  let vp := merged.value_proposition
  let vp := { vp with
              headline :=
                if (!(Py.truthy vp.headline) &&
                    Py.truthy extra.value_proposition.headline) then
                  extra.value_proposition.headline else vp.headline }
  let vp := { vp with
              subheadline :=
                if (!(Py.truthy vp.subheadline) &&
                    Py.truthy extra.value_proposition.subheadline) then
                  extra.value_proposition.subheadline else vp.subheadline }
  let vp := { vp with
              key_benefits :=
                Py.extendUnique vp.key_benefits extra.value_proposition.key_benefits }
  { merged with
    value_proposition := vp
    product := { merged.product with
      features := Py.extendUnique merged.product.features extra.product.features }
    social_proof := { merged.social_proof with
      testimonials :=
        Py.extendUnique merged.social_proof.testimonials extra.social_proof.testimonials
      stats := Py.extendUnique merged.social_proof.stats extra.social_proof.stats }
    assets := { merged.assets with
      pdfs := merged.assets.pdfs ++ extra.assets.pdfs
      videos := merged.assets.videos ++ extra.assets.videos } }

/-- The "Deduplicate and limit" block (orchestrator.py lines 349–353). -/
def applyCaps (m : ExtractedContent) : ExtractedContent :=
  { m with
    value_proposition :=
      { m.value_proposition with key_benefits := m.value_proposition.key_benefits.take 5 }
    product := { m.product with features := m.product.features.take 10 }
    social_proof := { m.social_proof with
      testimonials := m.social_proof.testimonials.take 3
      stats := m.social_proof.stats.take 5 } }

/-- `Orchestrator._extract_content` from the point where the per-source
extraction results `all_extractions` are in hand (orchestrator.py
lines 310–355): `None` on an empty list, otherwise the first element
supplemented by the rest and capped. -/
def extract_content (all_extractions : List ExtractedContent) :
    Option ExtractedContent :=
  match all_extractions with
  | [] => none
  | first :: rest => some (applyCaps (rest.foldl mergeInto first))

end Orchestrator

/-! ## A small backtracking regular-expression engine.

The Python source drives its heuristics with `re.search` / `re.match` /
`re.findall` / `re.finditer`.  The patterns are embedded as terms of the
`Rex.Rx` syntax below and executed by a backtracking matcher that
reproduces Python's leftmost, first-alternative, greedy semantics:
`run` returns every way the pattern can match a prefix of the input,
ordered by the engine's backtracking priority, and the head of that list
is the match Python picks.  Every `*` / `+` / `{lo,hi}` in the embedded
patterns repeats a single-character class, so repetition is represented
directly over character classes (`starCls`, `repCls`), which keeps the
matcher structurally recursive.  Capture groups never nest in the
embedded patterns, so captures are collected left to right. -/

namespace Rex

/-- Regular-expression syntax: single-character classes, sequencing,
ordered alternation, greedy `*` and `{lo,hi}` over a character class,
greedy `?`, one-character negative lookahead, capture groups, and the
multiline `^` / `$` anchors. -/
inductive Rx where
  | eps
  | cls (p : Char → Bool)
  | seq (a b : Rx)
  | alt (a b : Rx)
  | starCls (p : Char → Bool)
  | repCls (p : Char → Bool) (lo hi : Nat)
  | opt (a : Rx)
  | nla (p : Char → Bool)
  | grp (a : Rx)
  | bol
  | eol

/-- Matcher state: the character just before the current position (for the
`^` anchor), the remaining input, and the captures recorded so far. -/
structure MSt where
  prev : Option Char
  rest : List Char
  caps : List (List Char)

/-- The states reached by consuming exactly `k` characters, for
`k = hi, hi-1, ..., lo` (greedy priority), all of which must satisfy `p`. -/
def consumeRange (p : Char → Bool) (lo hi : Nat) (st : MSt) : List MSt :=
  let m := min ((st.rest.takeWhile p).length) hi
  if m < lo then []
  else
    (List.range (m - lo + 1)).map (fun i =>
      let k := m - i
      { prev := if k = 0 then st.prev else (st.rest.take k).getLast?
        rest := st.rest.drop k
        caps := st.caps })

/-- All ways `rx` can match a prefix of `st.rest`, in backtracking
priority order. -/
def run (rx : Rx) (st : MSt) : List MSt :=
  match rx with
  | .eps => [st]
  | .cls p =>
      match st.rest with
      | [] => []
      | c :: r => if p c then [{ prev := some c, rest := r, caps := st.caps }] else []
  | .seq a b => (run a st).flatMap (run b)
  | .alt a b => run a st ++ run b st
  | .starCls p => consumeRange p 0 st.rest.length st
  | .repCls p lo hi => consumeRange p lo hi st
  | .opt a => run a st ++ [st]
  | .nla p =>
      match st.rest with
      | [] => [st]
      | c :: _ => if p c then [] else [st]
  | .bol => if st.prev = none ∨ st.prev = some '\n' then [st] else []
  | .eol => if st.rest = [] ∨ st.rest.head? = some '\n' then [st] else []
  | .grp a =>
      (run a st).map (fun r =>
        { r with caps := r.caps ++ [st.rest.take (st.rest.length - r.rest.length)] })

/-- The match Python's engine picks at the current position, if any:
`(group(0), captures, remaining input)`. -/
def matchHere (rx : Rx) (prev : Option Char) (s : List Char) :
    Option (List Char × List (List Char) × List Char) :=
  match run rx { prev := prev, rest := s, caps := [] } with
  | [] => none
  | r :: _ => some (s.take (s.length - r.rest.length), r.caps, r.rest)

/-- `re.search`: the leftmost match, as `(group(0), captures)`. -/
def searchFrom (rx : Rx) (prev : Option Char) (s : List Char) :
    Option (List Char × List (List Char)) :=
  match matchHere rx prev s with
  | some (m, caps, _) => some (m, caps)
  | none =>
      match s with
      | [] => none
      | c :: t => searchFrom rx (some c) t

/-- `re.finditer` / `re.findall` worker: successive non-overlapping
leftmost matches, each `(group(0), captures)`; scanning resumes after each
match (one character further on an empty match).  `fuel` is initialised to
`s.length + 1`, which suffices because every step consumes at least one
character. -/
def findallGo (rx : Rx) : Nat → Option Char → List Char →
    List (List Char × List (List Char))
  | 0, _, _ => []
  | f + 1, prev, s =>
    match matchHere rx prev s with
    | none =>
        match s with
        | [] => []
        | c :: t => findallGo rx f (some c) t
    | some (m, caps, _) =>
        match s with
        | [] => [(m, caps)]
        | c :: t =>
            if m.length = 0 then (m, caps) :: findallGo rx f (some c) t
            else (m, caps) :: findallGo rx f m.getLast? (t.drop (m.length - 1))

/-- `re.findall` / `re.finditer` over a string. -/
def findallSt (rx : Rx) (s : String) : List (List Char × List (List Char)) :=
  findallGo rx (s.data.length + 1) none s.data

/-- `re.search(...).group(0)`. -/
def search0 (rx : Rx) (s : String) : Option String :=
  (searchFrom rx none s.data).map (fun p => (⟨p.1⟩ : String))

/-- `re.search(...).group(1)` (patterns whose single group always
participates in a successful match). -/
def search1 (rx : Rx) (s : String) : Option String :=
  (searchFrom rx none s.data).map (fun p => (⟨p.2.headD []⟩ : String))

/-- `re.match(...)`: success of an anchored match at the start. -/
def matchb (rx : Rx) (s : String) : Bool :=
  (matchHere rx none s.data).isSome

/-- `re.match(...).group(1)`. -/
def match1 (rx : Rx) (s : String) : Option String :=
  (matchHere rx none s.data).map (fun p => (⟨p.2.1.headD []⟩ : String))

/-- `re.findall` for a pattern without capture groups: full matches. -/
def findall0 (rx : Rx) (s : String) : List String :=
  (findallSt rx s).map (fun p => (⟨p.1⟩ : String))

/-- `re.findall` for a pattern with exactly one capture group. -/
def findall1 (rx : Rx) (s : String) : List String :=
  (findallSt rx s).map (fun p => (⟨p.2.headD []⟩ : String))

/-- `re.finditer` for a pattern with exactly two capture groups. -/
def finditer2 (rx : Rx) (s : String) : List (String × String) :=
  (findallSt rx s).map
    (fun p => ((⟨p.2.headD []⟩ : String), (⟨p.2.getD 1 []⟩ : String)))

/-- Literal character. -/
def chr (c : Char) : Rx := .cls (fun x => x = c)

/-- Case-insensitive literal character (`c` is given in lowercase). -/
def chrI (c : Char) : Rx := .cls (fun x => Py.lowerChar x = c)

/-- Sequencing a list of terms. -/
def cat (rs : List Rx) : Rx := rs.foldr .seq .eps

/-- Ordered alternation over a list of terms. -/
def alts (rs : List Rx) : Rx := rs.foldr .alt (.cls (fun _ => false))

/-- Case-sensitive literal string. -/
def lit (s : String) : Rx := cat (s.data.map chr)

/-- Case-insensitive literal string (`s` is given in lowercase). -/
def litI (s : String) : Rx := cat (s.data.map chrI)

/-- `\d` as a predicate. -/
def digitP (c : Char) : Bool := c.isDigit

/-- `.` as a predicate (anything but a newline; no pattern uses DOTALL). -/
def dotP (c : Char) : Bool := c != '\n'

/-- `\d`. -/
def digit : Rx := .cls digitP

/-- `\s`. -/
def space : Rx := .cls Py.isSpace

/-- `\s*`. -/
def spaces : Rx := .starCls Py.isSpace

/-- `\s+`. -/
def spaces1 : Rx := .repCls Py.isSpace 1 0xffffff

/-- `\d+`. -/
def digits1 : Rx := .repCls digitP 1 0xffffff

/-- `.{lo,hi}`. -/
def anyRep (lo hi : Nat) : Rx := .repCls dotP lo hi

end Rex


/-! ## HTML-variant field extractors (src/agents/tools/content_extractor.py,
lines 135–491).  The BeautifulSoup parse collaborator is abstracted as a
`Soup` record holding exactly the query results the extractor reads
(find-first-by-tag, find-all-by-tag, class-regex queries, attribute access
and text extraction), per the external-interface boundary of the spec. -/

namespace ContentExtractor

open Rex

/-- The parsed-document queries used by the HTML extractors.  Texts are as
returned by `get_text(strip=True)`; absent tags/attributes are `none`
(for `find`) or `""` (for `.get(attr, '')`). -/
structure Soup where
  h1 : Option String := none
  title : Option String := none
  metaDescription : Option String := none
  ogDescription : Option String := none
  ogSiteName : Option String := none
  uls : List (List String) := []
  lis : List String := []
  ps : List String := []
  quoteTexts : List String := []
  classTexts : String → List String := fun _ => []
  imgs : List (String × String) := []
  buttonsAnchors : List (String × String) := []
  anchorHrefs : List String := []
  videoSrcs : List (Option String) := []
  iframeSrcs : List String := []
  pageText : String := ""
  pageTextStripped : String := ""

/-- `_extract_value_prop` (content_extractor.py lines 198–228). -/
def extract_value_prop (soup : Soup) : ValueProposition :=
  let headline := (soup.h1).getD ""
  let subheadline :=
    match soup.metaDescription with
    | some c => if Py.truthy c then Py.take c 200 else ""
    | none => ""
  let subheadline :=
    if subheadline = "" then
      match soup.ogDescription with
      | some c => if Py.truthy c then Py.take c 200 else ""
      | none => ""
    else subheadline
  let benefits :=
    (soup.uls.take 5).flatMap (fun ul =>
      (ul.take 5).filter (fun t => 10 < Py.len t ∧ Py.len t < 150))
  { headline := headline, subheadline := subheadline,
    key_benefits := benefits.take 5 }

/-- The outcome-verb test of `_extract_product_info` (line 257):
`re.match(r'^(get|achieve|save|earn|receive|enjoy|access)', text.lower())`. -/
def isOutcomeHtml (text : String) : Bool :=
  Py.startswithAny (Py.lower text)
    ["get", "achieve", "save", "earn", "receive", "enjoy", "access"]

/-- The `10 < len(text) < 150` window of the feature/outcome loop. -/
def liLenOk (text : String) : Bool := 10 < Py.len text && Py.len text < 150

/-- `re.split(r'[|\-–—]', s)`. -/
def splitSeps (s : String) : List String :=
  (s.data.splitOnP (fun c => c = '|' || c = '-' || c = '–' || c = '—')).map
    (fun cs => (⟨cs⟩ : String))

/-- `_extract_product_info` (content_extractor.py lines 231–265). -/
def extract_product_info (soup : Soup) : ProductInfo :=
  let name :=
    match soup.title with
    | some t => Py.strip ((splitSeps t).headD "")
    | none => ""
  let description :=
    ((soup.ps.take 10).find? (fun t => 50 < Py.len t ∧ Py.len t < 500)).getD ""
  let features := soup.lis.filter (fun t => liLenOk t && !(isOutcomeHtml t))
  let outcomes := soup.lis.filter (fun t => liLenOk t && isOutcomeHtml t)
  { name := name, description := description,
    features := features.take 8, outcomes := outcomes.take 5 }

/-- `[,\d]`. -/
def commaDigit (c : Char) : Bool := c = ',' || c.isDigit

/-- `xs?` for a case-insensitive literal. -/
def litIs (s : String) : Rx := cat [litI s, .opt (chrI 's')]

/-- `\d+[,\d]*\+?\s*(?:customers?|users?|clients?|members?)`, `re.I`. -/
def statPattern1 : Rx :=
  cat [digits1, .starCls commaDigit, .opt (chr '+'), spaces,
       alts [litIs "customer", litIs "user", litIs "client", litIs "member"]]

/-- `\d+%\s*(?:increase|growth|improvement|savings?)`, `re.I`. -/
def statPattern2 : Rx :=
  cat [digits1, chr '%', spaces,
       alts [litI "increase", litI "growth", litI "improvement", litIs "saving"]]

/-- `£?\$?\d+[,\d]*(?:k|m|bn?)?\s*(?:saved|earned|raised)`, `re.I`. -/
def statPattern3 : Rx :=
  cat [.opt (chr '£'), .opt (chr '$'), digits1, .starCls commaDigit,
       .opt (alts [chrI 'k', chrI 'm', cat [chrI 'b', .opt (chrI 'n')]]), spaces,
       alts [litI "saved", litI "earned", litI "raised"]]

/-- `\d+\+?\s*(?:years?|countries|locations)`, `re.I`. -/
def statPattern4 : Rx :=
  cat [digits1, .opt (chr '+'), spaces,
       alts [litIs "year", litI "countries", litI "locations"]]

/-- The class-name patterns scanned for testimonial-like elements. -/
def testimonialClassPatterns : List String :=
  ["testimonial", "review", "quote", "customer-say"]

/-- `_extract_social_proof` (content_extractor.py lines 268–313). -/
def extract_social_proof (soup : Soup) : SocialProof :=
  let testimonials :=
    soup.quoteTexts.filter (fun t => 20 < Py.len t ∧ Py.len t < 500)
  let testimonials :=
    testimonialClassPatterns.foldl (fun acc pat =>
      (soup.classTexts pat).foldl (fun a t =>
        if 20 < Py.len t ∧ Py.len t < 500 ∧ t ∉ a then a ++ [t] else a) acc)
      testimonials
  let stats :=
    ([statPattern1, statPattern2, statPattern3, statPattern4].flatMap
      (fun p => (findall0 p soup.pageText).take 2))
  let badgePatterns := ["certified", "award", "trusted", "accredited", "member of"]
  let badges :=
    soup.imgs.flatMap (fun im =>
      (badgePatterns.filter (fun p => Py.contains (Py.lower im.2) p)).map
        (fun _ => im.2))
  { testimonials := testimonials.take 3,
    stats := (Py.dedup stats).take 5,
    trust_badges := badges.take 5 }

/-- `urllib.parse.urljoin(base, url)` for the call sites of
`_extract_ctas`, which only resolve hrefs that start with `/` against a
base URL that `extract_from_url` has already forced to carry an
`http://`/`https://` scheme: a protocol-relative `//host/...` href keeps
only the base scheme, any other `/...` href replaces the base path. -/
def urljoinRootRel (base url : String) : String :=
  let scheme := base.data.takeWhile (fun c => c ≠ ':')
  if Py.startswith url "//" then ⟨scheme ++ ':' :: url.data⟩
  else
    let afterScheme := base.data.drop (scheme.length + 3)
    let netloc := afterScheme.takeWhile (fun c => c ≠ '/' ∧ c ≠ '?' ∧ c ≠ '#')
    ⟨scheme ++ ':' :: '/' :: '/' :: (netloc ++ url.data)⟩

/-- The href-absolutization step of `_extract_ctas` (lines 330–333). -/
def absolutizeHref (base href : String) : String :=
  if Py.truthy href &&
      !(Py.startswithAny href ["http", "mailto", "tel", "#", "javascript"]) &&
      Py.startswith href "/" then
    urljoinRootRel base href
  else href

/-- Ordered primary-CTA keyword list (line 321). -/
def primaryPatterns : List String :=
  ["apply", "sign up", "get started", "book", "buy", "start", "try"]

/-- Ordered secondary-CTA keyword list (line 322). -/
def secondaryPatterns : List String :=
  ["learn more", "find out", "discover", "see how", "explore"]

/-- `_extract_ctas` (content_extractor.py lines 316–353): iterate all
`button`/`a` elements, classify by substring match on the lowercased
text, first match of each class wins, recording the (possibly resolved)
href under the original text. -/
def extract_ctas (soup : Soup) (base_url : String) : CTAs :=
  soup.buttonsAnchors.foldl (fun ctas elem =>
    let text := Py.lower elem.1
    let href := absolutizeHref base_url elem.2
    let ctas :=
      if ctas.primary = "" ∧ (primaryPatterns.any (fun p => Py.contains text p)) then
        { ctas with primary := elem.1,
                    urls := if Py.truthy href then Py.dictSet ctas.urls elem.1 href
                            else ctas.urls }
      else ctas
    if ctas.secondary = "" ∧ (secondaryPatterns.any (fun p => Py.contains text p)) then
      { ctas with secondary := elem.1,
                  urls := if Py.truthy href then Py.dictSet ctas.urls elem.1 href
                          else ctas.urls }
    else ctas) {}

end ContentExtractor

namespace ContentExtractor

/-- The characters of the class `[0-9A-Fa-f]`. -/
def hexDigitChars : List Char :=
  "0123456789abcdefABCDEF".data

/-- `[0-9A-Fa-f]`. -/
def isHexD (c : Char) : Bool := hexDigitChars.contains c

/-- Whether the next character exists and is a hex digit (the
`(?![0-9A-Fa-f])` lookahead). -/
def hexHead (l : List Char) : Bool :=
  match l.head? with
  | some c => isHexD c
  | none => false

/-- `re.findall(r'#([0-9A-Fa-f]{6}|[0-9A-Fa-f]{3})(?![0-9A-Fa-f])', s)`,
transcribed as a direct scanner: a match starts only at `#`, first trying
six hex digits, then three, each requiring the following character not to
be a hex digit.  Scanning may simply continue one character on (instead
of jumping past the matched digits) because a matched group contains no
`#` and so cannot start another match. -/
def hexFindall : List Char → List (List Char)
  | [] => []
  | c :: rest =>
      let tail := hexFindall rest
      if c = '#' then
        let h6 := rest.take 6
        if h6.length = 6 && h6.all isHexD && !(hexHead (rest.drop 6)) then h6 :: tail
        else
          let h3 := rest.take 3
          if h3.length = 3 && h3.all isHexD && !(hexHead (rest.drop 3)) then h3 :: tail
          else tail
      else tail

/-- `f"#{match[0]*2}{match[1]*2}{match[2]*2}"` for a 3-digit match. -/
def expand3 : List Char → List Char
  | [a, b, c] => [a, a, b, b, c, c]
  | l => l

/-- Value of one hex digit. -/
def hexVal (c : Char) : Option Nat :=
  if '0' ≤ c ∧ c ≤ '9' then some (c.toNat - 48)
  else if 'A' ≤ c ∧ c ≤ 'F' then some (c.toNat - 55)
  else if 'a' ≤ c ∧ c ≤ 'f' then some (c.toNat - 87)
  else none

/-- `int(s, 16)` for a two-character slice; `none` models `ValueError`. -/
def hexByte : List Char → Option Nat
  | [a, b] =>
      match hexVal a, hexVal b with
      | some x, some y => some (16 * x + y)
      | _, _ => none
  | [a] => hexVal a
  | _ => none

/-- The `f"#{...}".upper()` normalization of one regex match
(content_extractor.py lines 425–427): 3-digit matches are expanded by
doubling each digit. -/
def normalizeColor (m : List Char) : String :=
  if m.length = 3 then ⟨'#' :: (expand3 m).map Py.upperChar⟩
  else ⟨'#' :: m.map Py.upperChar⟩

/-- The loop body of `_extract_colors` for one regex match: normalize,
parse the three channel bytes (`none` models `ValueError`, which skips
the match), skip near-white (all channels > 240) and near-black (all
channels < 15) colors, and add to the set. -/
def colorStep (acc : List String) (m : List Char) : List String :=
  let color : String := normalizeColor m
  match hexByte ((color.data.drop 1).take 2),
        hexByte ((color.data.drop 3).take 2),
        hexByte ((color.data.drop 5).take 2) with
  | some r, some g, some b =>
      if r > 240 ∧ g > 240 ∧ b > 240 then acc
      else if r < 15 ∧ g < 15 ∧ b < 15 then acc
      else if color ∈ acc then acc else acc ++ [color]
  | _, _, _ => acc

/-- `_extract_colors` (content_extractor.py lines 416–444).  The Python
`set` is modelled in first-occurrence insertion order; no verified
property depends on the order. -/
def extract_colors (html : String) : List String :=
  ((hexFindall html.data).foldl colorStep []).take 6

/-- The characters of an upper-case normalized hex color. -/
def upperHexDigits : List Char :=
  "0123456789ABCDEF".data

/-- A 6-digit uppercase hex color string `#RRGGBB`. -/
def isHex6Color (s : String) : Bool :=
  s.data.head? = some '#' && s.data.tail.length = 6 &&
    s.data.tail.all (fun c => upperHexDigits.contains c)

/-- All three channels parse and exceed 240 (near-white). -/
def isNearWhite (s : String) : Bool :=
  match hexByte ((s.data.drop 1).take 2), hexByte ((s.data.drop 3).take 2),
        hexByte ((s.data.drop 5).take 2) with
  | some r, some g, some b => r > 240 && g > 240 && b > 240
  | _, _, _ => false

/-- All three channels parse and fall below 15 (near-black). -/
def isNearBlack (s : String) : Bool :=
  match hexByte ((s.data.drop 1).take 2), hexByte ((s.data.drop 3).take 2),
        hexByte ((s.data.drop 5).take 2) with
  | some r, some g, some b => r < 15 && g < 15 && b < 15
  | _, _, _ => false

/-- The tone-indicator table of `_extract_brand` (lines 379–385). -/
def toneIndicatorsHtml : List (String × List String) :=
  [("professional", ["professional", "expert", "trusted", "reliable", "established"]),
   ("friendly", ["friendly", "easy", "simple", "fun", "enjoy"]),
   ("innovative", ["innovative", "cutting-edge", "modern", "advanced", "smart"]),
   ("caring", ["caring", "support", "help", "understand", "family"]),
   ("premium", ["premium", "luxury", "exclusive", "elite", "bespoke"])]

/-- The industry-indicator table of `_extract_brand` (lines 395–402). -/
def industryIndicatorsHtml : List (String × List String) :=
  [("financial services",
    ["isa", "savings", "investment", "pension", "mortgage", "insurance", "bank"]),
   ("e-commerce", ["shop", "cart", "checkout", "delivery", "shipping", "buy now"]),
   ("saas", ["software", "platform", "dashboard", "integration", "api", "automate"]),
   ("healthcare", ["health", "medical", "doctor", "patient", "clinic", "treatment"]),
   ("education", ["learn", "course", "training", "certificate", "student", "education"]),
   ("real estate", ["property", "home", "house", "rent", "buy", "estate"])]

/-- `_extract_brand` (content_extractor.py lines 356–413). -/
def extract_brand (soup : Soup) (html : String) : BrandElements :=
  let name :=
    match soup.ogSiteName with
    | some c =>
        if Py.truthy c then c
        else
          match soup.title with
          | some t =>
              let parts := splitSeps t
              if parts.length > 1 then Py.strip (parts.getLastD "")
              else Py.strip (parts.headD "")
          | none => ""
    | none =>
        match soup.title with
        | some t =>
            let parts := splitSeps t
            if parts.length > 1 then Py.strip (parts.getLastD "")
            else Py.strip (parts.headD "")
        | none => ""
  let text := Py.lower soup.pageText
  let tones :=
    toneIndicatorsHtml.filterMap (fun ti =>
      if ti.2.any (fun kw => Py.contains text kw) then some ti.1 else none)
  let tones := if tones = [] then ["professional"] else tones
  let industry :=
    match industryIndicatorsHtml.find? (fun ii =>
        2 ≤ (ii.2.filter (fun kw => Py.contains text kw)).length) with
    | some ii => ii.1
    | none => "general business"
  { name := name, colors := extract_colors html,
    tone_keywords := tones, industry := industry }

/-- `_extract_assets` (content_extractor.py lines 447–491).  The general
`urllib.parse.urljoin` used for arbitrary relative asset references is an
external collaborator, passed in as `uj`. -/
def extract_assets (uj : String → String → String) (soup : Soup)
    (base_url : String) : Assets :=
  let pdfs :=
    soup.anchorHrefs.filterMap (fun href =>
      if Py.endswith href ".pdf" then
        some (if !(Py.startswith href "http") then uj base_url href else href)
      else none)
  let videos :=
    soup.videoSrcs.filterMap (fun src? =>
      match src? with
      | some src =>
          if Py.truthy src then
            some (if !(Py.startswith src "http") then uj base_url src else src)
          else none
      | none => none)
  let videos :=
    videos ++ soup.iframeSrcs.filter (fun src =>
      Py.contains src "youtube" || Py.contains src "vimeo")
  let images :=
    (soup.imgs.take 20).filterMap (fun im =>
      let src := im.1
      let alt := Py.lower im.2
      if ["icon", "logo", "arrow", "button"].any (fun x => Py.contains alt x) then none
      else if ["icon", "logo", "1x1", "pixel"].any
          (fun x => Py.contains (Py.lower src) x) then none
      else if Py.truthy src then
        some (if !(Py.startswith src "http") then uj base_url src else src)
      else none)
  { pdfs := pdfs.take 5, videos := videos.take 3, images := images.take 10 }

/-- `extract_from_url` after a successful fetch and parse
(content_extractor.py lines 174–195); the network fetch, protocol
prefixing and parsing above are the external-collaborator boundary. -/
def extract_from_url (uj : String → String → String) (url : String)
    (soup : Soup) (html : String) : ExtractedContent :=
  { source := url, source_type := "url",
    value_proposition := extract_value_prop soup,
    product := extract_product_info soup,
    social_proof := extract_social_proof soup,
    ctas := extract_ctas soup url,
    brand := extract_brand soup html,
    assets := extract_assets uj soup url,
    raw_text := Py.take soup.pageTextStripped 5000 }

end ContentExtractor

/-! ## Text-variant field extractors (src/agents/tools/content_extractor.py,
lines 498–903), which run over text already produced by the external
PDF-to-text collaborator. -/

namespace ContentExtractor

open Rex

/-- `lines = text.split('\n'); clean_lines = [l.strip() for l in lines if l.strip()]`
(content_extractor.py lines 514–515). -/
def cleanLines (text : String) : List String :=
  ((Py.splitNl text).map Py.strip).filter (fun l => l ≠ "")

/-- Python `str.isupper()` (ASCII cased letters, which is all the embedded
inputs contain): at least one cased character and no lowercase one. -/
def pyIsUpper (s : String) : Bool :=
  (s.data.any (fun c => ('a' ≤ c ∧ c ≤ 'z') ∨ ('A' ≤ c ∧ c ≤ 'Z'))) &&
    (s.data.all (fun c => ¬('a' ≤ c ∧ c ≤ 'z')))

/-- `(?:the|our)\s+(?:platform|solution|system)\s+(?:that|for)\s+(.{20,150})`, `re.I`. -/
def valuePropPattern1 : Rx :=
  cat [alts [litI "the", litI "our"], spaces1,
       alts [litI "platform", litI "solution", litI "system"], spaces1,
       alts [litI "that", litI "for"], spaces1, .grp (anyRep 20 150)]

/-- `(?:revolutioni[sz]ing|transforming|streamlining)\s+(.{15,100})`, `re.I`. -/
def valuePropPattern2 : Rx :=
  cat [alts [cat [litI "revolutioni", alts [chrI 's', chrI 'z'], litI "ing"],
             litI "transforming", litI "streamlining"],
       spaces1, .grp (anyRep 15 100)]

/-- `(?:help(?:s|ing)?|enable(?:s|ing)?)\s+(?:you|organizations?|teams?|companies?)\s+(.{15,100})`, `re.I`. -/
def valuePropPattern3 : Rx :=
  cat [alts [cat [litI "help", .opt (alts [chrI 's', litI "ing"])],
             cat [litI "enable", .opt (alts [chrI 's', litI "ing"])]],
       spaces1,
       alts [litI "you", litIs "organization", litIs "team", litIs "companie"],
       spaces1, .grp (anyRep 15 100)]

/-- `^(page\s*\d+|table of contents|\d+\.)`, applied with `re.match` to the
lowercased line. -/
def headerSkipPattern : Rx :=
  alts [cat [lit "page", spaces, digits1], lit "table of contents",
        cat [digits1, chr '.']]

/-- The headline line heuristic (content_extractor.py lines 556–567):
first of the first 10 lines of reasonable length that is not a
page-number/TOC header nor a long all-caps line. -/
def headlineFromLines (lines : List String) : String :=
  ((lines.take 10).find? (fun line =>
    ¬(Py.len line < 10 ∨ Py.len line > 150) ∧
    ¬(matchb headerSkipPattern (Py.lower line)) ∧
    ¬(pyIsUpper line ∧ Py.len line > 30))).getD ""

/-- The subheadline scan (content_extractor.py lines 569–577): the first
line of length in (20,300) strictly after the headline line among the
first 15 lines. -/
def subheadFrom (headline : String) : List String → Bool → String
  | [], _ => ""
  | l :: t, found =>
      if l = headline then subheadFrom headline t true
      else if found ∧ 20 < Py.len l ∧ Py.len l < 300 then l
      else subheadFrom headline t found

/-- `(?:•|-|\*|✓|✔|→|►)`. -/
def bulletMark : Rx :=
  alts [chr '•', chr '-', chr '*', chr '✓', chr '✔', chr '→', chr '►']

/-- `(?:•|-|\*|✓|✔|→|►)\s*(.{15,150})`, `re.I | re.M`. -/
def benefitPattern1 : Rx := cat [bulletMark, spaces, .grp (anyRep 15 150)]

/-- `(?:benefit|advantage|feature)s?:\s*(.{15,150})`, `re.I | re.M`. -/
def benefitPattern2 : Rx :=
  cat [alts [litI "benefit", litI "advantage", litI "feature"], .opt (chrI 's'),
       chr ':', spaces, .grp (anyRep 15 150)]

/-- `(?:save|reduce|streamline|automate|simplify|track|manage)\s+(.{10,100})`, `re.I | re.M`. -/
def benefitPattern3 : Rx :=
  cat [alts [litI "save", litI "reduce", litI "streamline", litI "automate",
             litI "simplify", litI "track", litI "manage"],
       spaces1, .grp (anyRep 10 100)]

/-- `^\d+[.):]\s*(.{15,150})`, used with `re.match` per line. -/
def numberedPattern : Rx :=
  cat [digits1, .cls (fun c => c = '.' || c = ')' || c = ':'), spaces,
       .grp (anyRep 15 150)]

/-- `_extract_value_prop_from_text` (content_extractor.py lines 538–604). -/
def extract_value_prop_from_text (lines : List String) (full_text : String) :
    ValueProposition :=
  let headline :=
    match [valuePropPattern1, valuePropPattern2, valuePropPattern3].findSome?
        (fun p => search0 p full_text) with
    | some m => Py.strip m
    | none => headlineFromLines lines
  let subheadline := subheadFrom headline (lines.take 15) false
  let benefits :=
    [benefitPattern1, benefitPattern2, benefitPattern3].foldl (fun acc p =>
      (findall1 p full_text).foldl (fun a m =>
        let cleaned := Py.rstrip ['.'] (Py.strip m)
        if cleaned ≠ "" ∧ cleaned ∉ a ∧ Py.len cleaned > 10 then a ++ [cleaned]
        else a) acc) []
  let benefits :=
    lines.foldl (fun a line =>
      match match1 numberedPattern line with
      | some m =>
          let item := Py.strip m
          if item ≠ "" ∧ item ∉ a then a ++ [item] else a
      | none => a) benefits
  { headline := headline, subheadline := subheadline,
    key_benefits := benefits.take 5 }

/-- `[A-Z]`. -/
def upperAZ (c : Char) : Bool := 'A' ≤ c ∧ c ≤ 'Z'

/-- `[a-z]`. -/
def lowerAZ (c : Char) : Bool := 'a' ≤ c ∧ c ≤ 'z'

/-- `[A-Za-z\s]`. -/
def letterSp (c : Char) : Bool := upperAZ c || lowerAZ c || Py.isSpace c

/-- `(?:introducing|welcome to|about)\s+([A-Z][A-Za-z\s]{3,30})`, `re.M`
(case-sensitive). -/
def namePattern1 : Rx :=
  cat [alts [lit "introducing", lit "welcome to", lit "about"], spaces1,
       .grp (cat [.cls upperAZ, .repCls letterSp 3 30])]

/-- `(?:the|our)\s+([A-Z][A-Za-z\s]{3,30})\s+(?:is|offers|provides)`, `re.M`. -/
def namePattern2 : Rx :=
  cat [alts [lit "the", lit "our"], spaces1,
       .grp (cat [.cls upperAZ, .repCls letterSp 3 30]), spaces1,
       alts [lit "is", lit "offers", lit "provides"]]

/-- `^([A-Z][A-Za-z\s]{3,30})(?:\s*[-–:])?\s*(?:your|the|a)`, `re.M`. -/
def namePattern3 : Rx :=
  cat [.bol, .grp (cat [.cls upperAZ, .repCls letterSp 3 30]),
       .opt (cat [spaces, .cls (fun c => c = '-' || c = '–' || c = ':')]),
       spaces, alts [lit "your", lit "the", lit "a"]]

/-- `source_name.rsplit('.', 1)[0]`. -/
def rsplitDot (s : String) : String :=
  if s.data.contains '.' then
    ⟨((s.data.reverse.dropWhile (fun c => c ≠ '.')).drop 1).reverse⟩
  else s

/-- `re.sub(r'\s+', ' ', s)`: collapse whitespace runs to single spaces. -/
def collapseWsGo : Bool → List Char → List Char
  | _, [] => []
  | prevSpace, c :: t =>
      if Py.isSpace c then
        if prevSpace then collapseWsGo true t else ' ' :: collapseWsGo true t
      else c :: collapseWsGo false t

/-- The filename clean-up of `_extract_product_from_text` (lines 613–614):
underscores/hyphens to spaces, whitespace collapsed, stripped. -/
def nameFromFile (source_name : String) : String :=
  let replaced :=
    (rsplitDot source_name).data.map (fun c => if c = '_' ∨ c = '-' then ' ' else c)
  Py.strip ⟨collapseWsGo false replaced⟩

/-- The bullet-marker prefixes tested by
`line.startswith(('•', '-', '*', '✓', '✔'))`. -/
def bulletPrefixes : List String := ["•", "-", "*", "✓", "✔"]

/-- `line.lstrip('•-*✓✔ ')`. -/
def lstripBullets (line : String) : String :=
  Py.lstrip ['•', '-', '*', '✓', '✔', ' '] line

/-- The feature-indicator keywords (line 642). -/
def featureKeywords : List String :=
  ["feature", "include", "offer", "provide", "enable", "allow"]

/-- The seven-verb exclusion test of the bullet branch (line 654):
`re.match(r'^(get|achieve|save|earn|receive|enjoy|you)', item.lower())`. -/
def isFeatureExcluded (item : String) : Bool :=
  Py.startswithAny (Py.lower item)
    ["get", "achieve", "save", "earn", "receive", "enjoy", "you"]

/-- The ten-verb outcome test (line 661):
`re.match(r'^(get|achieve|save|earn|receive|enjoy|access|gain|unlock|discover)', item.lower())`. -/
def isOutcomeText (item : String) : Bool :=
  Py.startswithAny (Py.lower item)
    ["get", "achieve", "save", "earn", "receive", "enjoy", "access", "gain",
     "unlock", "discover"]

/-- The features loop of `_extract_product_from_text` (lines 641–657):
a line contributes itself when it contains a feature keyword, and its
bullet-stripped item when it is a bullet line whose item does not start
with one of seven verbs; the result is deduplicated and capped at 8. -/
def featuresFromText (lines : List String) : List String :=
  let features :=
    lines.flatMap (fun line =>
      (if featureKeywords.any (fun kw => Py.contains (Py.lower line) kw) ∧
          10 < Py.len line ∧ Py.len line < 200 then [line] else []) ++
      (if Py.startswithAny line bulletPrefixes then
        let item := Py.strip (lstripBullets line)
        if 10 < Py.len item ∧ Py.len item < 150 ∧ ¬(isFeatureExcluded item) then
          [item]
        else []
      else []))
  (Py.dedup features).take 8

/-- The outcomes loop of `_extract_product_from_text` (lines 660–668):
bullet-stripped items starting with one of ten outcome verbs, capped 5. -/
def outcomesFromText (lines : List String) : List String :=
  (lines.filterMap (fun line =>
    let item := Py.strip (lstripBullets line)
    if isOutcomeText item ∧ 10 < Py.len item ∧ Py.len item < 150 then some item
    else none)).take 5

/-- `_extract_product_from_text` (content_extractor.py lines 607–669). -/
def extract_product_from_text (lines : List String) (full_text : String)
    (source_name : String) : ProductInfo :=
  let fromFile := nameFromFile source_name
  let name :=
    match [namePattern1, namePattern2, namePattern3].findSome?
        (fun p => search1 p full_text) with
    | some m => Py.strip m
    | none => ""
  let name :=
    if name = "" then (if Py.len fromFile > 3 then Py.take fromFile 50 else "")
    else name
  let description :=
    (lines.find? (fun line =>
      50 < Py.len line ∧ Py.len line < 500 ∧
      ¬(Py.startswithAny line ["•", "-", "*", "✓", "✔", "1.", "2."]))).getD ""
  { name := name, description := description,
    features := featuresFromText lines, outcomes := outcomesFromText lines }

end ContentExtractor

namespace ContentExtractor

open Rex

/-- `["""](.{20,300})["""]` (ASCII and curly double quotes). -/
def quotePattern : Rx :=
  cat [.cls (fun c => c = '"' || c = '“' || c = '”'),
       .grp (anyRep 20 300),
       .cls (fun c => c = '"' || c = '“' || c = '”')]

/-- `(.{20,300})\s*[-–—]\s*([A-Z][a-z]+(?:\s+[A-Z][a-z]+)?)`. -/
def attributionPattern : Rx :=
  cat [.grp (anyRep 20 300), spaces,
       .cls (fun c => c = '-' || c = '–' || c = '—'), spaces,
       .grp (cat [.cls upperAZ, .repCls lowerAZ 1 0xffffff,
                  .opt (cat [spaces1, .cls upperAZ, .repCls lowerAZ 1 0xffffff])])]

/-- The quote characters stripped from attribution matches
(`.strip('"\'""'')`). -/
def quoteStripChars : List Char :=
  ['"', '\x27', '“', '”', '‘', '’']

/-- `\d+[,\d]*\+?\s*(?:customers?|users?|clients?|members?|people)`, `re.I`. -/
def textStatPattern1 : Rx :=
  cat [digits1, .starCls commaDigit, .opt (chr '+'), spaces,
       alts [litIs "customer", litIs "user", litIs "client", litIs "member",
             litI "people"]]

/-- `\d+%\s*(?:increase|growth|improvement|savings?|more|better)`, `re.I`. -/
def textStatPattern2 : Rx :=
  cat [digits1, chr '%', spaces,
       alts [litI "increase", litI "growth", litI "improvement", litIs "saving",
             litI "more", litI "better"]]

/-- `(?:over|more than)\s*\d+[,\d]*\s*(?:years?|customers?|members?)`, `re.I`. -/
def textStatPattern3 : Rx :=
  cat [alts [litI "over", litI "more than"], spaces, digits1, .starCls commaDigit,
       spaces, alts [litIs "year", litIs "customer", litIs "member"]]

/-- `£?\$?€?\d+[,\d]*(?:\.\d+)?(?:k|m|bn?|million|billion)?\s*(?:saved|raised|invested|earned)`, `re.I`. -/
def textStatPattern4 : Rx :=
  cat [.opt (chr '£'), .opt (chr '$'), .opt (chr '€'), digits1,
       .starCls commaDigit, .opt (cat [chr '.', digits1]),
       .opt (alts [chrI 'k', chrI 'm', cat [chrI 'b', .opt (chrI 'n')],
                   litI "million", litI "billion"]),
       spaces, alts [litI "saved", litI "raised", litI "invested", litI "earned"]]

/-- `\d+\+?\s*(?:years?|countries?|locations?|offices?)\s*(?:of experience|worldwide|globally)?`, `re.I`. -/
def textStatPattern5 : Rx :=
  cat [digits1, .opt (chr '+'), spaces,
       alts [litIs "year", litIs "countrie", litIs "location", litIs "office"],
       spaces, .opt (alts [litI "of experience", litI "worldwide", litI "globally"])]

/-- `rated\s*\d+(?:\.\d+)?\s*(?:out of|/)\s*\d+`, `re.I`. -/
def textStatPattern6 : Rx :=
  cat [litI "rated", spaces, digits1, .opt (cat [chr '.', digits1]), spaces,
       alts [litI "out of", chr '/'], spaces, digits1]

/-- `\d+(?:\.\d+)?★?\s*(?:star|rating)`, `re.I`. -/
def textStatPattern7 : Rx :=
  cat [digits1, .opt (cat [chr '.', digits1]), .opt (chr '★'), spaces,
       alts [litI "star", litI "rating"]]

/-- `(?:certified|accredited|regulated)\s+by\s+([A-Za-z\s]+)`, `re.I`. -/
def badgePattern1 : Rx :=
  cat [alts [litI "certified", litI "accredited", litI "regulated"], spaces1,
       litI "by", spaces1, .grp (.repCls letterSp 1 0xffffff)]

/-- `(?:member of|affiliated with)\s+([A-Za-z\s]+)`, `re.I`. -/
def badgePattern2 : Rx :=
  cat [alts [litI "member of", litI "affiliated with"], spaces1,
       .grp (.repCls letterSp 1 0xffffff)]

/-- `(?:winner|awarded?)\s+(?:of\s+)?([A-Za-z\s]+(?:award|prize))`, `re.I`. -/
def badgePattern3 : Rx :=
  cat [alts [litI "winner", cat [litI "awarde", .opt (chrI 'd')]], spaces1,
       .opt (cat [litI "of", spaces1]),
       .grp (cat [.repCls letterSp 1 0xffffff, alts [litI "award", litI "prize"]])]

/-- `(ISO\s*\d+|FCA|PRA|GDPR|SOC\s*\d+)\s*(?:certified|compliant|regulated)?`, `re.I`. -/
def badgePattern4 : Rx :=
  cat [.grp (alts [cat [litI "iso", spaces, digits1], litI "fca", litI "pra",
                   litI "gdpr", cat [litI "soc", spaces, digits1]]),
       spaces, .opt (alts [litI "certified", litI "compliant", litI "regulated"])]

/-- `_extract_social_proof_from_text` (content_extractor.py lines 672–723). -/
def extract_social_proof_from_text (_lines : List String) (full_text : String) :
    SocialProof :=
  let testimonials := (findall1 quotePattern full_text).take 3
  let testimonials :=
    (finditer2 attributionPattern full_text).foldl (fun acc m =>
      let quote := Py.stripChars quoteStripChars (Py.strip m.1)
      if quote ≠ "" ∧ Py.len quote > 20 then
        acc ++ [quote ++ " - " ++ m.2]
      else acc) testimonials
  let stats :=
    [textStatPattern1, textStatPattern2, textStatPattern3, textStatPattern4,
     textStatPattern5, textStatPattern6, textStatPattern7].flatMap
      (fun p => (findall0 p full_text).take 2)
  let badges :=
    [badgePattern1, badgePattern2, badgePattern3, badgePattern4].flatMap
      (fun p => ((findall1 p full_text).map Py.strip).filter (fun m => m ≠ ""))
  { testimonials := (Py.dedup testimonials).take 3,
    stats := (Py.dedup stats).take 5,
    trust_badges := (Py.dedup badges).take 5 }

/-- `[^\s<>"{}|\\^`\[\]]` (the URL-character class). -/
def urlChar (c : Char) : Bool :=
  !(Py.isSpace c) &&
    !(['<', '>', '"', '\x7b', '\x7d', '|', '\\', '^', '\x60', '[', ']'].contains c)

/-- `https?://[^\s<>"{}|\\^`\[\]]+` (case-sensitive). -/
def urlPattern : Rx :=
  cat [lit "http", .opt (chr 's'), lit "://", .repCls urlChar 1 0xffffff]

/-- `[A-Za-z0-9_-]`. -/
def fileChar (c : Char) : Bool :=
  upperAZ c || lowerAZ c || c.isDigit || c = '_' || c = '-'

/-- `(?:download|see|view|refer to)\s*(?:the\s*)?([A-Za-z0-9_-]+\.(?:pdf|doc|docx))`, `re.I`. -/
def filePattern1 : Rx :=
  cat [alts [litI "download", litI "see", litI "view", litI "refer to"], spaces,
       .opt (cat [litI "the", spaces]),
       .grp (cat [.repCls fileChar 1 0xffffff, chr '.',
                  alts [litI "pdf", litI "doc", litI "docx"]])]

/-- `(?:attached|enclosed|included):\s*([A-Za-z0-9_-]+\.(?:pdf|doc|docx))`, `re.I`. -/
def filePattern2 : Rx :=
  cat [alts [litI "attached", litI "enclosed", litI "included"], chr ':', spaces,
       .grp (cat [.repCls fileChar 1 0xffffff, chr '.',
                  alts [litI "pdf", litI "doc", litI "docx"]])]

/-- `_extract_assets_from_text` (content_extractor.py lines 871–903). -/
def extract_assets_from_text (full_text : String) : Assets :=
  let urls := findall0 urlPattern full_text
  let acc :=
    urls.foldl (fun (acc : List String × List String × List String) url =>
      let (pdfs, videos, images) := acc
      let urlL := Py.lower url
      if Py.endswith urlL ".pdf" then (pdfs ++ [url], videos, images)
      else if ["youtube", "vimeo", "video", ".mp4", ".webm"].any
          (fun x => Py.contains urlL x) then (pdfs, videos ++ [url], images)
      else if [".jpg", ".jpeg", ".png", ".gif", ".webp"].any
          (fun x => Py.endswith urlL x) then (pdfs, videos, images ++ [url])
      else (pdfs, videos, images)) ([], [], [])
  let (pdfs, videos, images) := acc
  let pdfs := pdfs ++ [filePattern1, filePattern2].flatMap
      (fun p => findall1 p full_text)
  { pdfs := (Py.dedup pdfs).take 5,
    videos := (Py.dedup videos).take 3,
    images := (Py.dedup images).take 10 }

/-- The colors step of `_extract_brand_from_text` (content_extractor.py
lines 813–816): the first six 3/6-digit hex matches, upper-cased and
prefixed with `#`, with no expansion, deduplication or light/dark
filtering. -/
def brand_colors_from_text (full_text : String) : List String :=
  ((hexFindall full_text.data).take 6).map
    (fun m => (⟨'#' :: m.map Py.upperChar⟩ : String))

end ContentExtractor

/-! ## Brand classifier (src/agents/tools/brand_analyzer.py). -/

namespace BrandAnalyzer

open ContentExtractor

/-- `BrandAnalysis` dataclass. -/
structure BrandAnalysis where
  company_name : String := ""
  industry : String := ""
  tone : List String := []
  formality_level : String := "professional"
  personality_traits : List String := []
  primary_color : String := "#1e3a5f"
  accent_color : String := "#e67e22"
  background_color : String := "#f5f7fa"
  key_phrases : List String := []
  words_to_avoid : List String := []
  emoji_recommendation : String := "minimal"
  value_statement : String := ""
  differentiators : List String := []
  target_emotion : String := ""
  deriving DecidableEq, Repr

/-- The user-preference overlay accepted by `analyze_brand`; `none`
fields model absent dict keys.  `use_emojis` distinguishes the dict
holding `True`, `False`, or no such key. -/
structure BrandPreferences where
  company_name : Option String := none
  tone : Option (List String) := none
  primary_color : Option String := none
  accent_color : Option String := none
  use_emojis : Option Bool := none
  brand_phrases : Option (List String) := none
  deriving DecidableEq, Repr

/-- `_determine_personality` (brand_analyzer.py lines 129–155).  The
`list(set(traits))` conversion is modelled in first-occurrence order; no
verified property depends on the order. -/
def determine_personality (industry : String) (tone : List String) :
    List String :=
  let industry_traits : List (String × List String) :=
    [("financial services", ["trustworthy", "reliable", "expert"]),
     ("e-commerce", ["helpful", "efficient", "customer-focused"]),
     ("saas", ["innovative", "smart", "solution-oriented"]),
     ("healthcare", ["caring", "professional", "supportive"]),
     ("education", ["knowledgeable", "encouraging", "patient"]),
     ("real estate", ["local expert", "trustworthy", "responsive"]),
     ("grant management",
      ["innovative", "caring", "solution-oriented", "impact-focused"]),
     ("marketing automation", ["innovative", "smart", "results-driven"])]
  let traits :=
    match industry_traits.find? (fun p => p.1 = industry) with
    | some p => p.2
    | none => ["professional", "helpful"]
  let traits := traits ++ (if "friendly" ∈ tone then ["approachable"] else [])
  let traits := traits ++ (if "innovative" ∈ tone then ["forward-thinking"] else [])
  let traits := traits ++ (if "premium" ∈ tone then ["sophisticated"] else [])
  (Py.dedup traits).take 5

/-- `_get_words_to_avoid` (brand_analyzer.py lines 158–180). -/
def get_words_to_avoid (industry : String) : List String :=
  let general_avoid := ["spam", "guaranteed", "no risk", "act now"]
  let industry_avoid : List (String × List String) :=
    [("financial services",
      ["guaranteed returns", "risk-free", "get rich", "best rates", "no-brainer"]),
     ("healthcare", ["cure", "miracle", "guaranteed results", "no side effects"]),
     ("general business", [])]
  general_avoid ++
    ((industry_avoid.find? (fun p => p.1 = industry)).map Prod.snd).getD []

/-- `_recommend_emoji_usage` (brand_analyzer.py lines 183–193). -/
def recommend_emoji_usage (formality industry : String) : String :=
  let formal_industries := ["financial services", "healthcare", "legal"]
  if industry ∈ formal_industries ∨ formality = "formal" then "none"
  else if formality = "casual" then "moderate"
  else "minimal"

/-- `_determine_target_emotion` (brand_analyzer.py lines 196–209). -/
def determine_target_emotion (industry : String) : String :=
  let emotion_map : List (String × String) :=
    [("financial services", "security"), ("e-commerce", "excitement"),
     ("saas", "confidence"), ("healthcare", "reassurance"),
     ("education", "aspiration"), ("real estate", "trust"),
     ("grant management", "empowerment"), ("marketing automation", "confidence")]
  ((emotion_map.find? (fun p => p.1 = industry)).map Prod.snd).getD "trust"

/-- `_apply_user_preferences` (brand_analyzer.py lines 212–238). -/
def apply_user_preferences (analysis : BrandAnalysis)
    (preferences : BrandPreferences) : BrandAnalysis :=
  let analysis :=
    match preferences.company_name with
    | some n => if Py.truthy n then { analysis with company_name := n } else analysis
    | none => analysis
  let analysis :=
    match preferences.tone with
    | some t => if t ≠ [] then { analysis with tone := t } else analysis
    | none => analysis
  let analysis :=
    match preferences.primary_color with
    | some c => if Py.truthy c then { analysis with primary_color := c } else analysis
    | none => analysis
  let analysis :=
    match preferences.accent_color with
    | some c => if Py.truthy c then { analysis with accent_color := c } else analysis
    | none => analysis
  let analysis :=
    match preferences.use_emojis with
    | some false => { analysis with emoji_recommendation := "none" }
    | some true => { analysis with emoji_recommendation := "moderate" }
    | none => analysis
  match preferences.brand_phrases with
  | some ps => if ps ≠ [] then { analysis with key_phrases := ps } else analysis
  | none => analysis

/-- The casual-tone indicators (brand_analyzer.py line 71). -/
def casualIndicators : List String := ["friendly", "fun", "casual", "playful"]

/-- The formal-tone indicators (brand_analyzer.py line 72). -/
def formalIndicators : List String :=
  ["premium", "luxury", "established", "traditional"]

/-- `analyze_brand` (brand_analyzer.py lines 42–126), over the typed
`ExtractedContent` (the Python dict produced by `to_dict()` is a lossless
field-for-field image of it, and the `.get` defaults never fire on it).
`user_preferences = none` models both `None` and the empty dict, which
are equally falsy. -/
def analyze_brand (extracted_content : ExtractedContent)
    (user_preferences : Option BrandPreferences) : BrandAnalysis :=
  let brand_data := extracted_content.brand
  let value_prop := extracted_content.value_proposition
  let product := extracted_content.product
  let tone :=
    if brand_data.tone_keywords ≠ [] then brand_data.tone_keywords
    else ["professional"]
  let formality :=
    if casualIndicators.any (fun t => t ∈ tone) then "casual"
    else if formalIndicators.any (fun t => t ∈ tone) then "formal"
    else "professional"
  let colors := brand_data.colors
  let analysis : BrandAnalysis :=
    { company_name := brand_data.name
      industry := brand_data.industry
      tone := tone
      formality_level := formality
      personality_traits := determine_personality brand_data.industry tone
      primary_color := (colors.head?).getD "#1e3a5f"
      accent_color := (colors.get? 1).getD "#e67e22"
      background_color := (colors.get? 2).getD "#f5f7fa"
      key_phrases :=
        (if Py.truthy value_prop.headline then [value_prop.headline] else []) ++
          value_prop.key_benefits.take 3
      words_to_avoid := get_words_to_avoid brand_data.industry
      emoji_recommendation := recommend_emoji_usage formality brand_data.industry
      value_statement :=
        if Py.truthy value_prop.headline then value_prop.headline
        else if Py.truthy product.description then Py.take product.description 200
        else ""
      differentiators := []
      target_emotion := determine_target_emotion brand_data.industry }
  match user_preferences with
  | some prefs => apply_user_preferences analysis prefs
  | none => analysis

end BrandAnalyzer

/-! ## Audience classifier (src/agents/tools/audience_suggester.py). -/

namespace AudienceSuggester

open ContentExtractor

/-- `AudienceSegment` dataclass. -/
structure AudienceSegment where
  name : String := ""
  type : String := "B2C"
  description : String := ""
  age_range : String := ""
  location : String := ""
  occupation : String := ""
  income_level : String := ""
  company_size : String := ""
  job_titles : List String := []
  industry : String := ""
  pain_points : List String := []
  goals : List String := []
  motivations : List String := []
  objections : List String := []
  awareness_level : String := "problem-aware"
  buying_stage : String := "consideration"
  deriving DecidableEq, Repr

/-- `AudienceSuggestion` dataclass. -/
structure AudienceSuggestion where
  journey_type : String := "B2C"
  segments : List AudienceSegment := []
  recommended_paths : Nat := 2
  segmentation_question : String := ""
  deriving DecidableEq, Repr

/-- The user-supplied audience dict accepted by `suggest_audiences`.
`name` is an `Option` because its absence falls back to a non-empty
default; the other `.get` defaults coincide with empty values.  Callers
pass `none` for an absent or empty dict (the orchestrator converts a
falsy dict to `None` before the call). -/
structure UserAudience where
  name : Option String := none
  description : String := ""
  age_range : String := ""
  location : String := ""
  occupation : String := ""
  company_size : String := ""
  job_titles : List String := []
  industry : String := ""
  pain_points : List String := []
  goals : List String := []
  deriving DecidableEq, Repr

/-- `_create_segment_from_user_input` (audience_suggester.py lines 115–138). -/
def create_segment_from_user_input (user_input : UserAudience)
    (journey_type : String) : AudienceSegment :=
  let segment : AudienceSegment :=
    { name := (user_input.name).getD "Primary Audience"
      type := journey_type
      description := user_input.description
      age_range := user_input.age_range
      location := user_input.location
      occupation := user_input.occupation }
  let segment :=
    if journey_type = "B2B" then
      { segment with company_size := user_input.company_size
                     job_titles := user_input.job_titles
                     industry := user_input.industry }
    else segment
  { segment with pain_points := user_input.pain_points
                 goals := user_input.goals }

/-- `_suggest_secondary_segment` (audience_suggester.py lines 141–185);
every branch returns a segment, so the result is always `some`. -/
def suggest_secondary_segment (_industry : String) (journey_type : String)
    (primary : AudienceSegment) : Option AudienceSegment :=
  if journey_type = "B2C" then
    if Py.contains primary.age_range "18-" || Py.contains primary.age_range "25-" then
      some { name := "Established Professionals", type := "B2C"
             description := "More established individuals with different priorities"
             age_range := "35-55", awareness_level := "solution-aware"
             buying_stage := "consideration"
             pain_points := ["Time constraints", "Want proven solutions"]
             goals := ["Efficiency", "Reliability"] }
    else
      some { name := "Young Professionals", type := "B2C"
             description := "Younger audience entering this market"
             age_range := "25-35", awareness_level := "problem-aware"
             buying_stage := "awareness"
             pain_points := ["New to this", "Budget conscious"]
             goals := ["Getting started", "Learning"] }
  else
    some { name := "Growing Companies", type := "B2B"
           description := "Companies in growth phase"
           company_size := "11-50 employees"
           job_titles := ["Operations Manager", "Team Lead"]
           awareness_level := "problem-aware", buying_stage := "consideration"
           pain_points := ["Scaling challenges", "Resource constraints"]
           goals := ["Efficiency", "Growth enablement"] }

/-- The `industry_segments` lookup table of `_suggest_segments_for_industry`
(audience_suggester.py lines 199–344), as
`industry_segments.get(industry, {}).get(journey_type, [])`. -/
def industrySegments (industry journey_type : String) : List AudienceSegment :=
  if industry = "financial services" then
    if journey_type = "B2C" then
      [{ name := "First-Time Savers", type := "B2C"
         description := "Individuals new to saving/investing"
         age_range := "25-35", awareness_level := "problem-aware"
         buying_stage := "consideration"
         pain_points := ["Don't know where to start", "Confused by options",
                         "Worried about risk"]
         goals := ["Build savings habit", "Understand their options",
                   "Feel financially secure"]
         motivations := ["Future security", "Life milestones"] },
       { name := "Active Savers", type := "B2C"
         description := "People already saving but looking for better options"
         age_range := "30-50", awareness_level := "solution-aware"
         buying_stage := "decision"
         pain_points := ["Poor returns", "Limited flexibility", "High fees"]
         goals := ["Better returns", "Tax efficiency", "Consolidate savings"]
         motivations := ["Optimization", "Efficiency"] }]
    else if journey_type = "B2B" then
      [{ name := "HR & Benefits Managers", type := "B2B"
         description := "Decision makers for employee benefits"
         job_titles := ["HR Director", "Benefits Manager", "People Lead"]
         company_size := "50-500 employees"
         awareness_level := "solution-aware", buying_stage := "consideration"
         pain_points := ["Employee retention", "Benefits complexity",
                         "Cost management"]
         goals := ["Improve benefits package", "Attract talent",
                   "Easy administration"] }]
    else []
  else if industry = "saas" then
    if journey_type = "B2B" then
      [{ name := "SMB Decision Makers", type := "B2B"
         description := "Small business owners and managers"
         job_titles := ["Founder", "CEO", "Operations Manager"]
         company_size := "1-50 employees"
         awareness_level := "problem-aware", buying_stage := "consideration"
         pain_points := ["Manual processes", "No budget for enterprise tools",
                         "Need quick wins"]
         goals := ["Automate tasks", "Save time", "Professional appearance"] },
       { name := "Enterprise Champions", type := "B2B"
         description := "Internal advocates at larger companies"
         job_titles := ["Team Lead", "Department Manager", "Senior Analyst"]
         company_size := "200+ employees"
         awareness_level := "solution-aware", buying_stage := "consideration"
         pain_points := ["Need to justify ROI", "Integration concerns",
                         "Security requirements"]
         goals := ["Prove value to leadership", "Solve team problems",
                   "Career advancement"] }]
    else if journey_type = "B2C" then
      [{ name := "Productivity Seekers", type := "B2C"
         description := "Individuals wanting to work smarter"
         age_range := "25-45", awareness_level := "problem-aware"
         buying_stage := "consideration"
         pain_points := ["Too many tasks", "Disorganized", "Overwhelmed"]
         goals := ["Get organized", "Save time", "Reduce stress"] }]
    else []
  else if industry = "e-commerce" then
    if journey_type = "B2C" then
      [{ name := "Value Seekers", type := "B2C"
         description := "Price-conscious shoppers looking for deals"
         age_range := "25-45", awareness_level := "solution-aware"
         buying_stage := "consideration"
         pain_points := ["Budget constraints", "Want best value",
                         "Fear of missing deals"]
         goals := ["Save money", "Get quality", "Find deals"]
         motivations := ["Savings", "Smart shopping"] },
       { name := "Convenience Buyers", type := "B2C"
         description := "Time-pressed shoppers prioritizing ease"
         age_range := "30-55", awareness_level := "product-aware"
         buying_stage := "decision"
         pain_points := ["No time to shop around", "Want reliability",
                         "Hate complicated checkout"]
         goals := ["Quick purchase", "Reliable delivery", "Easy returns"]
         motivations := ["Convenience", "Time-saving"] }]
    else []
  else if industry = "grant management" then
    if journey_type = "B2B" then
      [{ name := "Grant-Making Organizations", type := "B2B"
         description :=
           "Foundations, trusts, and corporate CSR teams managing grant programs"
         job_titles := ["Program Manager", "Grants Officer", "Foundation Director",
                        "CSR Manager"]
         company_size := "10-500 employees"
         awareness_level := "problem-aware", buying_stage := "consideration"
         pain_points := ["Drowning in spreadsheets", "Manual application reviews",
                         "Can't track impact", "Too much admin time"]
         goals := ["Streamline grant management", "Track social value",
                   "Reduce admin burden", "Better funding decisions"]
         motivations := ["Create more impact", "Work smarter not harder"] },
       { name := "Community Organizations", type := "B2B"
         description :=
           "Nonprofits and charities seeking funding and managing grants received"
         job_titles := ["Executive Director", "Fundraising Manager",
                        "Development Officer"]
         company_size := "1-50 employees"
         awareness_level := "solution-aware", buying_stage := "consideration"
         pain_points := ["Complex application processes", "Reporting requirements",
                         "Finding funding opportunities"]
         goals := ["Win more grants", "Simplify reporting",
                   "Build funder relationships"]
         motivations := ["Secure funding", "Focus on mission"] }]
    else if journey_type = "B2C" then
      [{ name := "Productivity Seekers", type := "B2C"
         description := "Individuals seeking to streamline grant-related work"
         age_range := "25-45", awareness_level := "problem-aware"
         buying_stage := "consideration"
         pain_points := ["Too many tasks", "Disorganized workflows",
                         "Overwhelmed by complexity"]
         goals := ["Get organized", "Save time", "Reduce stress"]
         motivations := ["Efficiency", "Work-life balance"] }]
    else []
  else []

/-- `_suggest_segments_for_industry` (audience_suggester.py lines 188–378). -/
def suggest_segments_for_industry (industry journey_type product_name : String)
    (benefits : List String) : List AudienceSegment :=
  let suggested := industrySegments industry journey_type
  let segments :=
    if suggested ≠ [] then suggested
    else if journey_type = "B2C" then
      [{ name := "Primary Audience", type := "B2C"
         description := "Target customers for " ++ product_name
         age_range := "25-55", awareness_level := "problem-aware"
         buying_stage := "consideration"
         pain_points := ["Looking for solutions"]
         goals := if benefits ≠ [] then benefits.take 3 else ["Solve their problem"] }]
    else
      [{ name := "Business Decision Makers", type := "B2B"
         description := "Key decision makers for " ++ product_name
         job_titles := ["Manager", "Director", "VP"]
         company_size := "10-500 employees"
         awareness_level := "solution-aware", buying_stage := "consideration"
         pain_points := ["Need efficient solutions"]
         goals := ["Improve operations", "Reduce costs"] }]
  segments.take 3

/-- `_generate_segmentation_question` (audience_suggester.py lines 381–404). -/
def generate_segmentation_question (segments : List AudienceSegment)
    (_product_name : String) : String :=
  if segments.length < 2 then "What's most important to you?"
  else if (segments.headD {}).type = "B2C" then
    let firstGoals :=
      (segments.filter (fun s => s.goals ≠ [])).map (fun s => s.goals.take 1)
    if 1 < (Py.dedup firstGoals).length then "What's your main goal right now?"
    else "How familiar are you with this type of product?"
  else "What's your company's biggest challenge right now?"

/-- `suggest_audiences` (audience_suggester.py lines 58–112), over the
typed `ExtractedContent`.  `product_name` reads `product.name` (the
`.get` default `'the product'` never fires on a `to_dict()` image). -/
def suggest_audiences (extracted_content : ExtractedContent)
    (journey_type : String) (user_provided : Option UserAudience) :
    AudienceSuggestion :=
  let industry := extracted_content.brand.industry
  let product_name := extracted_content.product.name
  let benefits := extracted_content.value_proposition.key_benefits
  let segments :=
    match user_provided with
    | some user =>
        let primary := create_segment_from_user_input user journey_type
        match suggest_secondary_segment industry journey_type primary with
        | some secondary => [primary, secondary]
        | none => [primary]
    | none => suggest_segments_for_industry industry journey_type product_name benefits
  { journey_type := journey_type
    segments := segments
    recommended_paths := min segments.length 3
    segmentation_question := generate_segmentation_question segments product_name }

end AudienceSuggester

/-! ## Pipeline coordinator (src/agents/orchestrator.py, `Orchestrator.run`).
The per-source fetch/extract loop feeding `all_extractions` and the
downstream offer-formatting / merge-to-document steps (lines 191–230) are
external collaborators; the model covers the run through the extraction
check and the two classifier steps, with empty `user_inputs`. -/

namespace Orchestrator

open ContentExtractor

/-- `OrchestrationStatus` enum. -/
inductive OrchestrationStatus where
  | pending | extracting | analyzing | generating | review | complete | error
  deriving DecidableEq, Repr

/-- The run-level outcome of `Orchestrator.run` through step 3: overall
status (as set so far), run-level error, and the recorded intermediate
outputs (`none` when the run returned before producing them). -/
structure RunModel where
  status : OrchestrationStatus
  error : Option String
  extracted_content : Option ExtractedContent
  brand_analysis : Option BrandAnalyzer.BrandAnalysis
  audience_suggestion : Option AudienceSuggester.AudienceSuggestion
  deriving DecidableEq, Repr

/-- `Orchestrator.run` (orchestrator.py lines 141–189) with empty
`user_inputs`: if `_extract_content` yields nothing the run records the
run-level error and returns before either classifier is invoked;
otherwise brand analysis (with the empty, hence falsy, preference dict)
and audience suggestion run on the reconciled record.  After step 3 the
status is `analyzing`; the later external steps advance it further. -/
def run (all_extractions : List ExtractedContent) (journey_type : String) :
    RunModel :=
  match extract_content all_extractions with
  | none =>
      { status := .error
        error := some "No content could be extracted from provided sources"
        extracted_content := none
        brand_analysis := none
        audience_suggestion := none }
  | some extracted =>
      { status := .analyzing
        error := none
        extracted_content := some extracted
        brand_analysis := some (BrandAnalyzer.analyze_brand extracted none)
        audience_suggestion :=
          some (AudienceSuggester.suggest_audiences extracted journey_type none) }

/-- The reconciliation loop changes only the supplemented/capped fields:
everything else in the accumulator survives `foldl mergeInto` untouched. -/
theorem foldl_mergeInto_frame (rest : List ExtractedContent) :
    ∀ first : ExtractedContent,
      (rest.foldl mergeInto first).ctas = first.ctas ∧
      (rest.foldl mergeInto first).brand = first.brand ∧
      (rest.foldl mergeInto first).product.name = first.product.name ∧
      (rest.foldl mergeInto first).product.description = first.product.description ∧
      (rest.foldl mergeInto first).product.outcomes = first.product.outcomes ∧
      (rest.foldl mergeInto first).social_proof.trust_badges =
        first.social_proof.trust_badges ∧
      (rest.foldl mergeInto first).assets.images = first.assets.images := by
  induction rest with
  | nil => intro first; simp
  | cons e t ih =>
      intro first
      have h := ih (mergeInto first e)
      simpa [mergeInto] using h

end Orchestrator

/-! ## Claim theorems. -/

open ContentExtractor Orchestrator BrandAnalyzer AudienceSuggester Rex

/-- C2: reconciling extractions A (headline "X", key_benefits ["a","b"]) and
B (headline "Y", key_benefits ["b","c"]) in the order [A, B] keeps A's
non-empty headline (a later source only fills empty scalar fields) and
yields the order-preserving deduplicated union ["a","b","c"] of the benefit
lists, truncated to 5. -/
theorem claim_C2_reconciliation_precedence (A B : ExtractedContent)
    (hA1 : A.value_proposition.headline = "X")
    (hA2 : A.value_proposition.key_benefits = ["a", "b"])
    (hB1 : B.value_proposition.headline = "Y")
    (hB2 : B.value_proposition.key_benefits = ["b", "c"]) :
    ∃ M, extract_content [A, B] = some M ∧
      M.value_proposition.headline = "X" ∧
      M.value_proposition.key_benefits = ["a", "b", "c"] := by
  refine ⟨_, rfl, ?_, ?_⟩ <;>
    simp [extract_content, applyCaps, mergeInto, hA1, hA2, hB1, hB2,
          Py.extendUnique, Py.truthy]

/-- Witness for C2 at concrete records. -/
theorem claim_C2_witness :
    ∃ M, extract_content
        [{ value_proposition := { headline := "X", key_benefits := ["a", "b"] } },
         { value_proposition := { headline := "Y", key_benefits := ["b", "c"] } }] =
        some M ∧
      M.value_proposition.headline = "X" ∧
      M.value_proposition.key_benefits = ["a", "b", "c"] :=
  claim_C2_reconciliation_precedence _ _ rfl rfl rfl rfl

/-- C3: an empty extraction list makes `_extract_content` signal "no
content" (`none`), upon which the coordinator records the run-level error
and returns before either classifier runs; whereas a single all-empty
extraction reconciles successfully and both classifiers run on that
empty-valued record. -/
theorem claim_C3_empty_vs_empty_record :
    extract_content [] = none ∧
    (Orchestrator.run [] "B2C").status = .error ∧
    (Orchestrator.run [] "B2C").error =
      some "No content could be extracted from provided sources" ∧
    (Orchestrator.run [] "B2C").brand_analysis = none ∧
    (Orchestrator.run [] "B2C").audience_suggestion = none ∧
    extract_content [({} : ExtractedContent)] = some {} ∧
    (Orchestrator.run [({} : ExtractedContent)] "B2C").status ≠ .error ∧
    (Orchestrator.run [({} : ExtractedContent)] "B2C").error = none ∧
    (Orchestrator.run [({} : ExtractedContent)] "B2C").brand_analysis =
      some (analyze_brand {} none) ∧
    (Orchestrator.run [({} : ExtractedContent)] "B2C").audience_suggestion =
      some (suggest_audiences {} "B2C" none) := by
  decide

/-- C10: reconciliation takes `ctas`, `brand`, `product.name`,
`product.description`, `product.outcomes`, `social_proof.trust_badges`
and `assets.images` solely from the first extraction: on any non-empty
input list the merged output's values for these fields equal the first
element's exactly, the later extractions' values being discarded. -/
theorem claim_C10_first_source_frame (first : ExtractedContent)
    (rest : List ExtractedContent) :
    ∃ M, extract_content (first :: rest) = some M ∧
      M.ctas = first.ctas ∧
      M.brand = first.brand ∧
      M.product.name = first.product.name ∧
      M.product.description = first.product.description ∧
      M.product.outcomes = first.product.outcomes ∧
      M.social_proof.trust_badges = first.social_proof.trust_badges ∧
      M.assets.images = first.assets.images := by
  obtain ⟨h1, h2, h3, h4, h5, h6, h7⟩ := foldl_mergeInto_frame rest first
  exact ⟨_, rfl, by simp [applyCaps, h1], by simp [applyCaps, h2],
         by simp [applyCaps, h3], by simp [applyCaps, h4],
         by simp [applyCaps, h5], by simp [applyCaps, h6],
         by simp [applyCaps, h7]⟩

/-- C9: for every extracted-content record, journey type and optional
user-supplied audience data, the suggestion has between 1 and 3 segments
and `recommended_paths = min(segment count, 3)`. -/
theorem claim_C9_segment_count_bound (ec : ExtractedContent) (jt : String)
    (user : Option UserAudience) :
    1 ≤ (suggest_audiences ec jt user).segments.length ∧
    (suggest_audiences ec jt user).segments.length ≤ 3 ∧
    (suggest_audiences ec jt user).recommended_paths =
      min (suggest_audiences ec jt user).segments.length 3 := by
  have hb : 1 ≤ (suggest_audiences ec jt user).segments.length ∧
      (suggest_audiences ec jt user).segments.length ≤ 3 := by
    match user with
    | some u =>
        constructor <;> (simp only [suggest_audiences]; split <;> simp)
    | none =>
        simp only [suggest_audiences, suggest_segments_for_industry]
        by_cases h : industrySegments ec.brand.industry jt = []
        · simp only [h, ne_eq, not_true_eq_false, if_false]
          split <;> simp
        · have hpos : 0 < (industrySegments ec.brand.industry jt).length :=
            List.length_pos.mpr h
          simp only [ne_eq, h, not_false_eq_true, if_true, List.length_take]
          omega
  exact ⟨hb.1, hb.2, rfl⟩

/-- C1 fails on the text-variant extractor: the single line
`"Access all features today"` contains the feature keyword `feature`, so
the features loop records the whole line, while its lowercase form starts
with the outcome verb `access` (which the feature-side exclusion list
`get/achieve/save/earn/receive/enjoy/you` does not cover), so the
outcomes loop records the same string — one string in both lists. -/
theorem claim_C1_counterexample :
    "Access all features today" ∈ featuresFromText ["Access all features today"] ∧
    "Access all features today" ∈ outcomesFromText ["Access all features today"] := by
  decide

/-- C1 (amended): in the HTML extractor the classification is mutually
exclusive — a list item is an outcome iff its lowercased text starts with
get/achieve/save/earn/receive/enjoy/access (`gain`/`unlock`/`discover`
are not in the HTML prefix list), otherwise a feature — so no string
appears in both `product.features` and `product.outcomes`.  The text
extractor does not have this property (see the counterexample). -/
theorem claim_C1_html_mutual_exclusivity (soup : Soup) (s : String)
    (h : s ∈ (extract_product_info soup).features) :
    s ∉ (extract_product_info soup).outcomes := by
  intro houtc
  simp only [extract_product_info] at h houtc
  have hf := List.mem_filter.mp (List.take_subset _ _ h)
  have ho := List.mem_filter.mp (List.take_subset _ _ houtc)
  have h1 := hf.2
  have h2 := ho.2
  simp only [Bool.and_eq_true, Bool.not_eq_true'] at h1 h2
  rw [h1.2] at h2
  exact Bool.false_ne_true h2.2

/-- Witness for C1's amended theorem at a concrete document. -/
theorem claim_C1_html_witness :
    "This long item describes things" ∉
      (extract_product_info
        { lis := ["This long item describes things"] }).outcomes :=
  claim_C1_html_mutual_exclusivity
    { lis := ["This long item describes things"] }
    "This long item describes things" (by decide)

/-- C4: every record produced by the HTML extractor and by the
text-variant field extractors satisfies the cap invariants
(`key_benefits ≤ 5`, `features ≤ 10`, `testimonials ≤ 3`, `stats ≤ 5`,
`images ≤ 10`), and the reconciler preserves them on any non-empty list
of valid inputs (its inputs are extractor outputs; it re-caps the four
lists it extends and leaves `images` at the first element's value). -/
theorem claim_C4_cap_invariants :
    (∀ (uj : String → String → String) (url : String) (soup : Soup)
        (html : String),
      (extract_from_url uj url soup html).value_proposition.key_benefits.length ≤ 5 ∧
      (extract_from_url uj url soup html).product.features.length ≤ 10 ∧
      (extract_from_url uj url soup html).social_proof.testimonials.length ≤ 3 ∧
      (extract_from_url uj url soup html).social_proof.stats.length ≤ 5 ∧
      (extract_from_url uj url soup html).assets.images.length ≤ 10) ∧
    (∀ (lines : List String) (text name : String),
      (extract_value_prop_from_text lines text).key_benefits.length ≤ 5 ∧
      (extract_product_from_text lines text name).features.length ≤ 10 ∧
      (extract_social_proof_from_text lines text).testimonials.length ≤ 3 ∧
      (extract_social_proof_from_text lines text).stats.length ≤ 5 ∧
      (extract_assets_from_text text).images.length ≤ 10) ∧
    (∀ (first : ExtractedContent) (rest : List ExtractedContent),
      (∀ e ∈ first :: rest, e.assets.images.length ≤ 10) →
      ∃ M, extract_content (first :: rest) = some M ∧
        M.value_proposition.key_benefits.length ≤ 5 ∧
        M.product.features.length ≤ 10 ∧
        M.social_proof.testimonials.length ≤ 3 ∧
        M.social_proof.stats.length ≤ 5 ∧
        M.assets.images.length ≤ 10) := by
  refine ⟨?_, ?_, ?_⟩
  · intro uj url soup html
    refine ⟨?_, ?_, ?_, ?_, ?_⟩ <;>
      simp [extract_from_url, extract_value_prop, extract_product_info,
            extract_social_proof, extract_assets, List.length_take]
  · intro lines text name
    refine ⟨?_, ?_, ?_, ?_, ?_⟩ <;>
      simp [extract_value_prop_from_text, extract_product_from_text,
            featuresFromText, extract_social_proof_from_text,
            extract_assets_from_text, List.length_take]
  · intro first rest hvalid
    have hframe := (foldl_mergeInto_frame rest first).2.2.2.2.2.2
    refine ⟨_, rfl, ?_, ?_, ?_, ?_, ?_⟩ <;>
      simp [applyCaps, List.length_take, hframe]
    exact hvalid first (List.mem_cons_self _ _)

/-- Witness for C4's reconciler conjunct at a concrete input. -/
theorem claim_C4_witness :
    ∃ M, extract_content [({} : ExtractedContent)] = some M ∧
      M.value_proposition.key_benefits.length ≤ 5 ∧
      M.product.features.length ≤ 10 ∧
      M.social_proof.testimonials.length ≤ 3 ∧
      M.social_proof.stats.length ≤ 5 ∧
      M.assets.images.length ≤ 10 :=
  claim_C4_cap_invariants.2.2 {} [] (by intro e he; simp at he; simp [he])

/-- Every match reported by the hex scanner is a six- or three-character
group of hex digits. -/
theorem hexFindall_shape (s : List Char) :
    ∀ m ∈ hexFindall s, (m.length = 6 ∨ m.length = 3) ∧ m.all isHexD = true := by
  induction s with
  | nil => intro m hm; simp [hexFindall] at hm
  | cons c rest ih =>
      intro m hm
      simp only [hexFindall] at hm
      split at hm
      · split at hm
        · rcases List.mem_cons.mp hm with rfl | h
          · rename_i hcond
            simp only [Bool.and_eq_true, decide_eq_true_eq] at hcond
            exact ⟨Or.inl hcond.1.1, hcond.1.2⟩
          · exact ih m h
        · split at hm
          · rcases List.mem_cons.mp hm with rfl | h
            · rename_i hcond
              simp only [Bool.and_eq_true, decide_eq_true_eq] at hcond
              exact ⟨Or.inr hcond.1.1, hcond.1.2⟩
            · exact ih m h
          · exact ih m hm
      · exact ih m hm

/-- Upper-casing a hex digit lands in the uppercase hex digits. -/
theorem upperChar_mem_upperHex {c : Char} (h : isHexD c = true) :
    Py.upperChar c ∈ upperHexDigits := by
  have hall : hexDigitChars.all
      (fun c => upperHexDigits.contains (Py.upperChar c)) = true := by decide
  have hmem : c ∈ hexDigitChars := by simpa [isHexD] using h
  simpa using List.all_eq_true.mp hall c hmem

/-- The normalization step produces a `#RRGGBB` uppercase string from any
3/6-digit hex match. -/
theorem normalizeColor_shape {m : List Char}
    (hlen : m.length = 6 ∨ m.length = 3) (hall : m.all isHexD = true) :
    isHex6Color (normalizeColor m) = true := by
  rcases hlen with h6 | h3
  · rw [normalizeColor, if_neg (by omega)]
    simp only [isHex6Color, List.head?_cons, List.tail_cons, List.length_map, h6,
               List.all_map, Bool.and_eq_true, decide_eq_true_eq, Function.comp]
    refine ⟨by simp, ?_⟩
    refine List.all_eq_true.mpr (fun c hc => ?_)
    simpa using upperChar_mem_upperHex (List.all_eq_true.mp hall c hc)
  · rw [normalizeColor, if_pos h3]
    obtain ⟨a, b, c, rfl⟩ := List.length_eq_three.mp h3
    simp only [List.all_cons, Bool.and_eq_true] at hall
    simp only [expand3, isHex6Color, List.map_cons, List.map_nil, List.head?_cons,
               List.tail_cons, List.all_cons, List.all_nil, List.length_cons,
               List.length_nil, Bool.and_eq_true, decide_eq_true_eq]
    simp [upperChar_mem_upperHex hall.1, upperChar_mem_upperHex hall.2.1,
          upperChar_mem_upperHex hall.2.2.1]

/-- The color-set predicate established by `colorStep`. -/
def GoodColor (s : String) : Prop :=
  isHex6Color s = true ∧ isNearWhite s = false ∧ isNearBlack s = false

/-- One `colorStep` only adds well-shaped, non-near-white, non-near-black
colors. -/
theorem colorStep_good (acc : List String) (m : List Char)
    (hlen : m.length = 6 ∨ m.length = 3) (hall : m.all isHexD = true)
    (hacc : ∀ x ∈ acc, GoodColor x) : ∀ x ∈ colorStep acc m, GoodColor x := by
  intro x hx
  simp only [colorStep] at hx
  split at hx
  · rename_i r g b hr hg hb
    split at hx
    · exact hacc x hx
    · split at hx
      · exact hacc x hx
      · split at hx
        · exact hacc x hx
        · rcases List.mem_append.mp hx with h | h
          · exact hacc x h
          · rcases List.mem_singleton.mp h with rfl
            refine ⟨normalizeColor_shape hlen hall, ?_, ?_⟩
            · rename_i hw _ _
              simp only [isNearWhite, hr, hg, hb]
              simp only [Bool.and_eq_true, decide_eq_true_eq, Bool.and_eq_false_iff,
                         decide_eq_false_iff_not]
              omega
            · rename_i _ hb2 _
              simp only [isNearBlack, hr, hg, hb]
              simp only [Bool.and_eq_true, decide_eq_true_eq, Bool.and_eq_false_iff,
                         decide_eq_false_iff_not]
              omega
  · exact hacc x hx

/-- Folding `colorStep` over well-shaped matches preserves `GoodColor`. -/
theorem foldl_colorStep_good (l : List (List Char)) :
    ∀ acc, (∀ m ∈ l, (m.length = 6 ∨ m.length = 3) ∧ m.all isHexD = true) →
      (∀ x ∈ acc, GoodColor x) → ∀ x ∈ l.foldl colorStep acc, GoodColor x := by
  induction l with
  | nil => intro acc _ hacc x hx; exact hacc x hx
  | cons m t ih =>
      intro acc hl hacc
      exact ih (colorStep acc m)
        (fun m' hm' => hl m' (List.mem_cons_of_mem _ hm'))
        (colorStep_good acc m (hl m (List.mem_cons_self _ _)).1
          (hl m (List.mem_cons_self _ _)).2 hacc)

/-- `colorStep` preserves `Nodup` (it adds a color only when absent). -/
theorem colorStep_nodup (acc : List String) (m : List Char)
    (h : acc.Nodup) : (colorStep acc m).Nodup := by
  simp only [colorStep]
  split
  · split
    · exact h
    · split
      · exact h
      · split
        · exact h
        · rename_i hnotmem
          simp [List.nodup_append, h, hnotmem]
  · exact h

/-- Folding `colorStep` preserves `Nodup`. -/
theorem foldl_colorStep_nodup (l : List (List Char)) :
    ∀ acc : List String, acc.Nodup → (l.foldl colorStep acc).Nodup := by
  induction l with
  | nil => intro acc h; exact h
  | cons m t ih => intro acc h; exact ih _ (colorStep_nodup acc m h)

/-- C5 fails on the text-variant extractor: for text containing
`#FFFFFF`, `#000000` and `#3366CC`, `_extract_brand_from_text` keeps the
near-white `#FFFFFF` (and the near-black `#000000`) — it uppercases and
caps the raw matches but applies no near-white/near-black filtering. -/
theorem claim_C5_counterexample :
    brand_colors_from_text "#FFFFFF #000000 #3366CC" =
      ["#FFFFFF", "#000000", "#3366CC"] ∧
    isNearWhite "#FFFFFF" = true ∧ isNearBlack "#000000" = true := by
  decide

/-- C5 (amended): the HTML-variant `_extract_colors` has all the claimed
properties — every element is a 6-digit uppercase hex string, neither
near-white (all channels > 240) nor near-black (all channels < 15), the
list is deduplicated and capped at 6, and markup containing `#FFFFFF`,
`#000000` and `#3366CC` yields exactly `["#3366CC"]`.  The text-variant
brand colors are only the first six raw hex matches uppercased, with no
filtering, deduplication or 3-digit expansion (see the counterexample). -/
theorem claim_C5_color_invariants :
    (∀ html c, c ∈ extract_colors html →
      isHex6Color c = true ∧ isNearWhite c = false ∧ isNearBlack c = false) ∧
    (∀ html, (extract_colors html).Nodup ∧ (extract_colors html).length ≤ 6) ∧
    extract_colors "#FFFFFF #000000 #3366CC" = ["#3366CC"] := by
  refine ⟨?_, ?_, by decide⟩
  · intro html c hc
    exact foldl_colorStep_good (hexFindall html.data) []
      (hexFindall_shape _) (by simp) c (List.take_subset _ _ hc)
  · intro html
    refine ⟨?_, by simp [extract_colors, List.length_take]⟩
    exact ((List.take_sublist _ _).nodup
      (foldl_colorStep_nodup (hexFindall html.data) [] (by simp)))

/-- Witness for C5's amended theorem at the scenario markup. -/
theorem claim_C5_witness :
    isHex6Color "#3366CC" = true ∧ isNearWhite "#3366CC" = false ∧
    isNearBlack "#3366CC" = false :=
  claim_C5_color_invariants.1 "#FFFFFF #000000 #3366CC" "#3366CC" (by decide)

/-- C6 fails as stated: a relative href that does not start with `/` is
recorded verbatim — `<a href="apply.html">Apply Now</a>` yields
`ctas.urls["Apply Now"] == "apply.html"`, which is not absolute (the
resolution step only fires for hrefs starting with `/`). -/
theorem claim_C6_counterexample :
    extract_ctas { buttonsAnchors := [("Apply Now", "apply.html")] }
        "https://example.com/page" =
      { primary := "Apply Now", secondary := "",
        urls := [("Apply Now", "apply.html")] } ∧
    Py.startswith "apply.html" "http" = false := by
  decide

/-- C6 (amended): a recorded CTA URL is absolute exactly when the matched
element's href is root-relative (starts with `/`): such hrefs are
resolved against the base URL — in particular
`<a href="/apply">Apply Now</a>` on `https://example.com/page` yields
primary `"Apply Now"` with URL `https://example.com/apply` — and any
href starting with a single `/` resolves to a URL carrying the base's
`https://` scheme; hrefs of any other relative form are recorded
verbatim and may remain relative. -/
theorem claim_C6_cta_url_resolution :
    (extract_ctas { buttonsAnchors := [("Apply Now", "/apply")] }
        "https://example.com/page" =
      { primary := "Apply Now", secondary := "",
        urls := [("Apply Now", "https://example.com/apply")] }) ∧
    (∀ base href, Py.startswith base "https://" = true →
      Py.startswith href "/" = true → Py.startswith href "//" = false →
      Py.startswith (absolutizeHref base href) "https://" = true) := by
  refine ⟨by decide, ?_⟩
  intro base href hb h1 h2
  obtain ⟨t, ht⟩ : ∃ t, href.data = '/' :: t := by
    cases hd : href.data with
    | nil => rw [Py.startswith, hd] at h1; exact absurd h1 (by decide)
    | cons c rest =>
        rw [Py.startswith, hd] at h1
        have hc : c = '/' := by
          by_contra hne
          have hbeq : ('/' == c) = false := by
            simp only [beq_eq_false_iff_ne, ne_eq]
            exact fun hh => hne hh.symm
          simp [List.isPrefixOf, hbeq] at h1
        subst hc
        exact ⟨rest, rfl⟩
  have htr : Py.truthy href = true := by
    simp only [Py.truthy, decide_eq_true_eq]
    intro hemp
    have himp : ([] : List Char) = '/' :: t := by rw [← ht, hemp]
    exact List.noConfusion himp
  have hnot : Py.startswithAny href
      ["http", "mailto", "tel", "#", "javascript"] = false := by
    simp only [Py.startswithAny, Py.startswith, ht, List.any_cons, List.any_nil]
    rfl
  have h2' : Py.startswith href "//" = false := h2
  rw [Py.startswith, ht] at h2'
  obtain ⟨r, hr⟩ := List.isPrefixOf_iff_prefix.mp hb
  have hscheme : base.data.takeWhile (fun c => ¬(c = ':')) = "https".data := by
    rw [← hr]; rfl
  simp only [absolutizeHref, htr, hnot, h1, Bool.not_false, Bool.and_true,
             Bool.true_and, Bool.and_self, if_true]
  simp only [urljoinRootRel, Py.startswith, ht, h2']
  rw [hscheme]
  simp [List.isPrefixOf]

/-- Witness for C6's amended theorem at the scenario href and base URL. -/
theorem claim_C6_witness :
    Py.startswith (absolutizeHref "https://example.com/page" "/apply")
      "https://" = true :=
  claim_C6_cta_url_resolution.2 "https://example.com/page" "/apply"
    (by decide) (by decide) (by decide)

/-- C7 fails as stated: for the text
`"Get 50% off\n- Save time\n- Achieve more"`, the bullet line
`"Save time"` appears in neither `key_benefits` (its 9 characters miss
the 15-character minimum of the bullet pattern and the 10-character
minimum of the action pattern) nor `outcomes` (it fails the strict
`10 < len` test). -/
theorem claim_C7_counterexample :
    "Save time" ∉
      (extract_value_prop_from_text
        (cleanLines "Get 50% off\n- Save time\n- Achieve more")
        "Get 50% off\n- Save time\n- Achieve more").key_benefits ∧
    "Save time" ∉
      (extract_product_from_text
        (cleanLines "Get 50% off\n- Save time\n- Achieve more")
        "Get 50% off\n- Save time\n- Achieve more" "document").outcomes := by
  decide

/-- C7 (amended): on the text
`"Get 50% off\n- Save time\n- Achieve more"` the text extractor yields
headline `"Get 50% off"`, an empty subheadline and an empty
`key_benefits` (each bullet body is shorter than the benefit patterns'
length minima), while product extraction classifies `"Get 50% off"` and
`"Achieve more"` as outcomes (`"Save time"` fails the strict `10 < len`
bound) and records no features, so neither bullet line is a feature. -/
theorem claim_C7_text_scenario :
    extract_value_prop_from_text
        (cleanLines "Get 50% off\n- Save time\n- Achieve more")
        "Get 50% off\n- Save time\n- Achieve more" =
      { headline := "Get 50% off", subheadline := "", key_benefits := [] } ∧
    (extract_product_from_text
        (cleanLines "Get 50% off\n- Save time\n- Achieve more")
        "Get 50% off\n- Save time\n- Achieve more" "document").features = [] ∧
    (extract_product_from_text
        (cleanLines "Get 50% off\n- Save time\n- Achieve more")
        "Get 50% off\n- Save time\n- Achieve more" "document").outcomes =
      ["Get 50% off", "Achieve more"] := by
  decide

/-- C8 fails as stated: a page whose text is just `"friendly"` triggers
no industry keyword set (industry defaults to `"general business"`), but
the `friendly` tone keyword makes the derived formality `casual`, so
`_recommend_emoji_usage` returns `"moderate"`, not `"minimal"`. -/
theorem claim_C8_counterexample :
    (extract_from_url (fun _ href => href) "u"
        { pageText := "friendly" } "").brand.industry = "general business" ∧
    (analyze_brand
        (extract_from_url (fun _ href => href) "u" { pageText := "friendly" } "")
        none).emoji_recommendation = "moderate" := by
  decide

/-- C8 (amended): when no industry keyword set reaches its threshold
(brand industry `"general business"`) the analysis keeps industry
`"general business"`, and its emoji recommendation is `"minimal"`
provided the derived formality level is `"professional"` (i.e. the tone
keywords include neither a casual indicator friendly/fun/casual/playful
nor a formal indicator premium/luxury/established/traditional); a casual
tone yields `"moderate"` instead (see the counterexample). -/
theorem claim_C8_industry_default (ec : ExtractedContent)
    (h1 : ec.brand.industry = "general business")
    (h2 : (analyze_brand ec none).formality_level = "professional") :
    (analyze_brand ec none).industry = "general business" ∧
    (analyze_brand ec none).emoji_recommendation = "minimal" := by
  refine ⟨by simp [analyze_brand, h1], ?_⟩
  have hrec : (analyze_brand ec none).emoji_recommendation =
      recommend_emoji_usage (analyze_brand ec none).formality_level
        ec.brand.industry := by
    simp [analyze_brand]
  rw [hrec, h2, h1]
  decide

/-- Witness for C8's amended theorem at a concrete record. -/
theorem claim_C8_witness :
    (analyze_brand { brand := { industry := "general business" } }
      none).industry = "general business" ∧
    (analyze_brand { brand := { industry := "general business" } }
      none).emoji_recommendation = "minimal" :=
  claim_C8_industry_default { brand := { industry := "general business" } }
    (by decide) (by decide)
